import Mathlib

/-!
Verification development for the FusionCoPilot plan sanitizer and plan executor
(src/fusion_addin/sanitizer.py, src/fusion_addin/executor.py).

The Python code is shallowly embedded: JSON-like runtime values become the
inductive `Value`; Python numbers (int and float) are modelled exactly by
rationals, with a flag recording whether the value is an int; exceptions become
an explicit `Except` error channel carrying the accumulated validation state,
mirroring the fact that the sanitizer's message buckets live on the object and
survive a raise.  String coercion of numbers via float()/int() is outside the
modelled value space (strings are modelled as non-coercible); this corner is
exercised by no claim.  Wall-clock fields of results (durations, timestamps,
created_at defaults) are modelled by an explicit `now` parameter or omitted.
The executor is modelled in its development branch (FUSION_AVAILABLE is False
outside the Fusion host, which is how this repository runs and is tested);
the host-API branch is commented out or unreachable in the source.
-/

namespace FusionCoPilot

/-- JSON-like Python runtime values.  `num q i` is a Python number with exact
rational value `q`; the flag `i` is `true` when the Python value is an int and
`false` when it is a float.  Dicts are insertion-ordered association lists with
string keys (as produced by JSON decoding). -/
inductive Value : Type where
  | null : Value
  | num : ℚ → Bool → Value
  | str : String → Value
  | list : List Value → Value
  | dict : List (String × Value) → Value

mutual

/-- Python `==` on runtime values (structural equality). -/
def Value.beq : Value → Value → Bool
  | .null, .null => true
  | .num q i, .num q' i' => q == q' && i == i'
  | .str s, .str s' => s == s'
  | .list xs, .list ys => Value.beqList xs ys
  | .dict fs, .dict gs => Value.beqDict fs gs
  | _, _ => false

def Value.beqList : List Value → List Value → Bool
  | [], [] => true
  | x :: xs, y :: ys => Value.beq x y && Value.beqList xs ys
  | _, _ => false

def Value.beqDict : List (String × Value) → List (String × Value) → Bool
  | [], [] => true
  | (k, v) :: fs, (k', v') :: gs => k == k' && Value.beq v v' && Value.beqDict fs gs
  | _, _ => false

end

instance : BEq Value := ⟨Value.beq⟩

/-- First-match lookup in an insertion-ordered dict. -/
def dictGet : List (String × Value) → String → Option Value
  | [], _ => none
  | (k, v) :: rest, key => if k = key then some v else dictGet rest key

/-- Python `key in d`. -/
def dictHasKey (fields : List (String × Value)) (key : String) : Bool :=
  (dictGet fields key).isSome

/-- Python `d[key] = v`: replace in place if the key exists, else append
(insertion order is preserved, as for Python dicts). -/
def dictSet : List (String × Value) → String → Value → List (String × Value)
  | [], key, v => [(key, v)]
  | (k, w) :: rest, key, v =>
      if k = key then (k, v) :: rest else (k, w) :: dictSet rest key v

/-- Python dict assignment for the executor's timeline mapping, whose keys are
arbitrary (hashable) runtime values. -/
def mapInsert : List (Value × Value) → Value → Value → List (Value × Value)
  | [], key, v => [(key, v)]
  | (k, w) :: rest, key, v =>
      if Value.beq k key then (k, v) :: rest else (k, w) :: mapInsert rest key v

/-- Python exceptions relevant to the two modules: the sanitizer's
ValidationError and ValidationWarning, the executor's ExecutionError, and a
catch-all for host exceptions (TypeError, AttributeError, KeyError, ...). -/
inductive PyErr : Type where
  | validationError : String → PyErr
  | validationWarning : String → PyErr
  | executionError : String → PyErr
  | otherError : String → PyErr
  deriving DecidableEq

/-- `str(e)` for the exceptions above (all carry their message). -/
def errText : PyErr → String
  | .validationError m => m
  | .validationWarning m => m
  | .executionError m => m
  | .otherError m => m

/-- Python type name, used in AttributeError/TypeError messages. -/
def typeName : Value → String
  | .null => "NoneType"
  | .num _ true => "int"
  | .num _ false => "float"
  | .str _ => "str"
  | .list _ => "list"
  | .dict _ => "dict"

/-- f-string rendering of a runtime value.  Exact for strings (the only case a
claim's message inspects); numbers render via the rational's `toString`, and
containers render as placeholders — no claim examines those texts. -/
def pyStr : Value → String
  | .null => "None"
  | .num q _ => toString q
  | .str s => s
  | .list _ => "[...]"
  | .dict _ => "<dict>"

/-- Python truthiness, as used by the executor's result bookkeeping. -/
def isTruthy : Value → Bool
  | .null => false
  | .num q _ => q != 0
  | .str s => s != ""
  | .list xs => !xs.isEmpty
  | .dict fs => !fs.isEmpty

/-- float(x): numbers convert to themselves; other types are modelled as
raising (strings that parse as numbers are outside the modelled value space). -/
def pyFloat : Value → Except PyErr ℚ
  | .num q _ => .ok q
  | v => .error (.otherError ("float() argument must be a number, not " ++ typeName v))

/-- int(x): truncation toward zero for numbers; other types raise. -/
def pyInt : Value → Except PyErr Int
  | .num q _ => .ok (Int.tdiv q.num (q.den : Int))
  | v => .error (.otherError ("int() argument must be a number, not " ++ typeName v))

/-- len(x) for sized values; unsized values raise TypeError. -/
def pyLen : Value → Except PyErr Nat
  | .str s => .ok s.length
  | .list xs => .ok xs.length
  | .dict fs => .ok fs.length
  | v => .error (.otherError ("object of type '" ++ typeName v ++ "' has no len()"))

/-- Python iteration: lists yield elements, strings yield one-char strings,
dicts yield their keys; other values raise TypeError. -/
def iterElems : Value → Except PyErr (List Value)
  | .list xs => .ok xs
  | .str s => .ok (s.toList.map (fun c => .str (String.mk [c])))
  | .dict fs => .ok (fs.map (fun kv => .str kv.1))
  | v => .error (.otherError ("'" ++ typeName v ++ "' object is not iterable"))

/-- Python `d[key]`, raising KeyError (whose str() is the quoted key). -/
def getItem (fields : List (String × Value)) (key : String) : Except PyErr Value :=
  match dictGet fields key with
  | some v => .ok v
  | none => .error (.otherError ("'" ++ key ++ "'"))

/-- Rational multiplication through mkRat.  Extensionally equal to `*` on ℚ
(theorem `ratMul_eq` below); used in the embedding because the library's
`Rat.mul` is irreducible, which would block evaluating the model on concrete
inputs. -/
def ratMul (a b : ℚ) : ℚ :=
  mkRat (a.num * b.num) (a.den * b.den)

/-- Python `v.get(key, default)` for mapping values; non-mappings raise
AttributeError. -/
def pyGet (v : Value) (key : String) (dflt : Value) : Except PyErr Value :=
  match v with
  | .dict fs => .ok ((dictGet fs key).getD dflt)
  | w => .error (.otherError ("'" ++ typeName w ++ "' object has no attribute get"))

/-- The sanitizer's two message buckets (self.validation_errors and
self.validation_warnings), threaded explicitly. -/
structure SanState : Type where
  errors : List String
  warnings : List String
  deriving DecidableEq

def addError (st : SanState) (m : String) : SanState :=
  { st with errors := st.errors ++ [m] }

def addWarning (st : SanState) (m : String) : SanState :=
  { st with warnings := st.warnings ++ [m] }

/-- Machine profile record; `none` means the key is absent from the dict, in
which case each use site's own .get default applies. -/
structure MachineProfile : Type where
  min_tool_diameter : Option ℚ
  max_cut_depth : Option ℚ
  min_wall_thickness : Option ℚ
  max_feature_size : Option ℚ
  deriving DecidableEq

/-- PlanSanitizer._default_machine_profile (numeric constraint keys). -/
def default_machine_profile : MachineProfile :=
  { min_tool_diameter := some (mkRat 1 2), max_cut_depth := some 100,
    min_wall_thickness := some (mkRat 4 5), max_feature_size := some 1000 }

/-- Settings keys consulted by the sanitizer, `none` when absent. -/
structure Settings : Type where
  max_operations_per_plan : Option Nat
  units_default : Option String
  max_execution_time : Option ℚ
  deriving DecidableEq

def defaultSettings : Settings :=
  { max_operations_per_plan := none, units_default := none, max_execution_time := none }

/-- PlanSanitizer.unit_conversions: factors to mm.  The rad entry is the exact
value of the IEEE-754 double computed by the source expression 180.0 / math.pi. -/
def unit_conversions (u : String) : Option ℚ :=
  if u = "mm" then some 1
  else if u = "cm" then some 10
  else if u = "m" then some 1000
  else if u = "in" then some (mkRat 254 10)
  else if u = "ft" then some (mkRat 3048 10)
  else if u = "deg" then some 1
  else if u = "rad" then some (mkRat 1007958012753983 17592186044416)
  else none

/-- PlanSanitizer._extract_dimension_value: bare numbers pass through; dicts
with a value field are float()-coerced; everything else is a ValidationError. -/
def extract_dimension_value (dimension : Value) : Except PyErr ℚ :=
  match dimension with
  | .num q _ => .ok q
  | .dict fields =>
      match dictGet fields "value" with
      | some v => pyFloat v
      | none => .error (.validationError ("Invalid dimension format: " ++ pyStr (.dict fields)))
  | v => .error (.validationError ("Invalid dimension format: " ++ pyStr v))

/-- PlanSanitizer._convert_dimension.  An unknown (or non-string) unit appends
a warning and is treated as mm before the multiplication, so original_unit is
recorded as mm in that case.  The multiplication raises TypeError for
non-numeric values, carrying the partially-updated warning bucket. -/
def convert_dimension (st : SanState) (dimension : Value) :
    Except (PyErr × SanState) (Value × SanState) :=
  match dimension with
  | .dict fields =>
      match dictGet fields "value" with
      | none => .ok (.dict fields, st)
      | some value =>
          let unitv := (dictGet fields "unit").getD (.str "mm")
          let p : String × SanState :=
            match unitv with
            | .str u =>
                if (unit_conversions u).isSome then (u, st)
                else ("mm", addWarning st ("Unknown unit '" ++ u ++ "', treating as mm"))
            | v => ("mm", addWarning st ("Unknown unit '" ++ pyStr v ++ "', treating as mm"))
          match value with
          | .num q i =>
              let f := (unit_conversions p.1).getD 1
              .ok (.dict [("value", .num (ratMul q f) false), ("unit", .str "mm"),
                          ("original_value", .num q i), ("original_unit", .str p.1)], p.2)
          | v => .error (.otherError ("unsupported operand type(s) for *: '" ++ typeName v ++ "' and 'float'"), p.2)
  | v => .ok (v, st)

/-- Shape test from _convert_dimensional_params: a dict with value and unit. -/
def isDimParam (v : Value) : Bool :=
  match v with
  | .dict fs => dictHasKey fs "value" && dictHasKey fs "unit"
  | _ => false

/-- PlanSanitizer._convert_dimensional_params: rebuild the params dict entry by
entry, converting exactly the `{value, unit}`-shaped entries.  3-D x/y/z dicts
and all other values (bare numbers included) pass through unchanged — the
source keeps them as-is in both its elif and else branches. -/
def convert_dimensional_params (st : SanState) :
    List (String × Value) → Except (PyErr × SanState) (List (String × Value) × SanState)
  | [] => .ok ([], st)
  | (k, v) :: rest =>
      if isDimParam v then
        match convert_dimension st v with
        | .error e => .error e
        | .ok (v', st') =>
            match convert_dimensional_params st' rest with
            | .error e => .error e
            | .ok (rest', st'') => .ok ((k, v') :: rest', st'')
      else
        match convert_dimensional_params st rest with
        | .error e => .error e
        | .ok (rest', st') => .ok ((k, v) :: rest', st')

/-- Python str.capitalize(): first character uppercased, the rest lowercased. -/
def pyCapitalize (s : String) : String :=
  match s.toList with
  | [] => ""
  | c :: cs => String.mk (c.toUpper :: cs.map Char.toLower)

/-- PlanSanitizer._sanitize_circular_params (validation part; the source
returns the params unchanged, so the model returns Unit). -/
def sanitize_circular_params (profile : MachineProfile) (params : List (String × Value)) :
    Except PyErr Unit :=
  match dictGet params "diameter" with
  | some dv =>
      match extract_dimension_value dv with
      | .error e => .error e
      | .ok diameter =>
          if diameter ≤ 0 then .error (.validationError "Diameter must be positive")
          else
            let min_diameter := profile.min_tool_diameter.getD (mkRat 1 10)
            if diameter < min_diameter then
              .error (.validationWarning ("Diameter " ++ toString diameter ++
                "mm below minimum tool diameter " ++ toString min_diameter ++ "mm"))
            else radiusCheck
  | none => radiusCheck
where
  radiusCheck : Except PyErr Unit :=
    match dictGet params "radius" with
    | some rv =>
        match extract_dimension_value rv with
        | .error e => .error e
        | .ok radius =>
            if radius ≤ 0 then .error (.validationError "Radius must be positive")
            else .ok ()
    | none => .ok ()

/-- One iteration of PlanSanitizer._sanitize_rectangular_params's loop. -/
def rectangularDimCheck (profile : MachineProfile) (params : List (String × Value))
    (dim : String) : Except PyErr Unit :=
  match dictGet params dim with
  | some dv =>
      match extract_dimension_value dv with
      | .error e => .error e
      | .ok value =>
          if value ≤ 0 then .error (.validationError (pyCapitalize dim ++ " must be positive"))
          else
            let max_size := profile.max_feature_size.getD 1000
            if value > max_size then
              .error (.validationError (pyCapitalize dim ++ " " ++ toString value ++
                "mm exceeds maximum feature size " ++ toString max_size ++ "mm"))
            else .ok ()
  | none => .ok ()

/-- PlanSanitizer._sanitize_rectangular_params (validation part). -/
def sanitize_rectangular_params (profile : MachineProfile)
    (params : List (String × Value)) : Except PyErr Unit := do
  rectangularDimCheck profile params "width"
  rectangularDimCheck profile params "height"
  rectangularDimCheck profile params "length"

/-- PlanSanitizer._sanitize_extrude_params (validation part). -/
def sanitize_extrude_params (profile : MachineProfile) (params : List (String × Value)) :
    Except PyErr Unit :=
  match dictGet params "distance" with
  | some dv =>
      match extract_dimension_value dv with
      | .error e => .error e
      | .ok distance =>
          if distance ≤ 0 then .error (.validationError "Extrude distance must be positive")
          else
            let max_depth := profile.max_cut_depth.getD 100
            if distance > max_depth then
              .error (.validationWarning ("Extrude distance " ++ toString distance ++
                "mm exceeds recommended maximum " ++ toString max_depth ++ "mm"))
            else directionCheck
  | none => directionCheck
where
  directionCheck : Except PyErr Unit :=
    match dictGet params "direction" with
    | some dirv =>
        if Value.beq dirv (.str "positive") || Value.beq dirv (.str "negative") ||
           Value.beq dirv (.str "symmetric") then .ok ()
        else
          .error (.validationError ("Invalid direction: " ++ pyStr dirv ++
            ". Must be one of ['positive', 'negative', 'symmetric']"))
    | none => .ok ()

/-- PlanSanitizer._sanitize_edge_params (validation part; fillet and chamfer). -/
def sanitize_edge_params (params : List (String × Value)) : Except PyErr Unit :=
  match dictGet params "radius" with
  | some rv =>
      match extract_dimension_value rv with
      | .error e => .error e
      | .ok radius =>
          if radius ≤ 0 then .error (.validationError "Fillet/chamfer radius must be positive")
          else if radius > 50 then
            .error (.validationWarning ("Large fillet radius " ++ toString radius ++
              "mm may cause geometric issues"))
          else .ok ()
  | none => .ok ()

/-- PlanSanitizer._sanitize_shell_params (validation part). -/
def sanitize_shell_params (profile : MachineProfile) (params : List (String × Value)) :
    Except PyErr Unit :=
  match dictGet params "thickness" with
  | some tv =>
      match extract_dimension_value tv with
      | .error e => .error e
      | .ok thickness =>
          if thickness ≤ 0 then .error (.validationError "Shell thickness must be positive")
          else
            let min_thickness := profile.min_wall_thickness.getD (mkRat 4 5)
            if thickness < min_thickness then
              .error (.validationWarning ("Shell thickness " ++ toString thickness ++
                "mm below minimum wall thickness " ++ toString min_thickness ++ "mm"))
            else .ok ()
  | none => .ok ()

/-- One count check of PlanSanitizer._sanitize_pattern_params.  Python's
isinstance(count, int) corresponds to the int flag on `Value.num`. -/
def patternCountCheck (params : List (String × Value)) (count_param : String) :
    Except PyErr Unit :=
  match dictGet params count_param with
  | some c =>
      match c with
      | .num q true =>
          if q < 1 then .error (.validationError (count_param ++ " must be a positive integer"))
          else if q > 100 then
            .error (.validationWarning ("Large pattern count " ++ toString q ++
              " may impact performance"))
          else .ok ()
      | _ => .error (.validationError (count_param ++ " must be a positive integer"))
  | none => .ok ()

/-- One distance check of PlanSanitizer._sanitize_pattern_params. -/
def patternDistanceCheck (params : List (String × Value)) (dist_param : String) :
    Except PyErr Unit :=
  match dictGet params dist_param with
  | some dv =>
      match extract_dimension_value dv with
      | .error e => .error e
      | .ok distance =>
          if distance ≤ 0 then .error (.validationError (dist_param ++ " must be positive"))
          else .ok ()
  | none => .ok ()

/-- PlanSanitizer._sanitize_pattern_params (validation part). -/
def sanitize_pattern_params (params : List (String × Value)) : Except PyErr Unit := do
  patternCountCheck params "count_1"
  patternCountCheck params "count_2"
  patternCountCheck params "count"
  patternDistanceCheck params "distance_1"
  patternDistanceCheck params "distance_2"
  patternDistanceCheck params "spacing"

/-- PlanSanitizer._sanitize_operation_params: dispatch the per-type validation
rules, then convert all dimensional parameters.  Non-mapping params objects
always abort sanitization of the whole plan with a host exception in the source
(AttributeError on .copy or .items); modelled uniformly as otherError. -/
def sanitize_operation_params (profile : MachineProfile) (st : SanState)
    (op_type : Value) (params : Value) : Except (PyErr × SanState) (Value × SanState) :=
  match params with
  | .dict fields =>
      let check : Except PyErr Unit :=
        if Value.beq op_type (.str "draw_circle") || Value.beq op_type (.str "create_hole") then
          sanitize_circular_params profile fields
        else if Value.beq op_type (.str "draw_rectangle") then
          sanitize_rectangular_params profile fields
        else if Value.beq op_type (.str "extrude") || Value.beq op_type (.str "cut") then
          sanitize_extrude_params profile fields
        else if Value.beq op_type (.str "fillet") || Value.beq op_type (.str "chamfer") then
          sanitize_edge_params fields
        else if Value.beq op_type (.str "shell") then
          sanitize_shell_params profile fields
        else if Value.beq op_type (.str "pattern_linear") ||
                Value.beq op_type (.str "pattern_circular") then
          sanitize_pattern_params fields
        else .ok ()
      match check with
      | .error e => .error (e, st)
      | .ok () =>
          match convert_dimensional_params st fields with
          | .error e => .error e
          | .ok (fields', st') => .ok (.dict fields', st')
  | v => .error (.otherError ("'" ++ typeName v ++ "' object has no attribute copy"), st)

/-- PlanSanitizer._get_valid_operations. -/
def get_valid_operations : List String :=
  ["create_sketch", "draw_line", "draw_circle", "draw_rectangle",
   "draw_polygon", "draw_arc", "draw_spline", "extrude", "cut",
   "revolve", "sweep", "loft", "fillet", "chamfer", "shell",
   "mirror", "pattern_linear", "pattern_circular", "pattern_rectangular", "pattern_path",
   "create_plane", "create_axis", "create_point", "set_dimension",
   "add_constraint", "rename_feature", "create_component",
   "create_joint", "create_hole", "thread_hole", "countersink_hole",
   "counterbore_hole"]

/-- The regex r'^op_<digits>' (one or more digits, anchored at both ends). -/
def isOpIdFormat (s : String) : Bool :=
  match s.toList with
  | 'o' :: 'p' :: '_' :: rest => !rest.isEmpty && rest.all Char.isDigit
  | _ => false

/-- Python `op['op'] not in valid_ops` uses == against a list of strings, so
only matching strings are members. -/
def isValidOpTag (v : Value) : Bool :=
  match v with
  | .str s => get_valid_operations.contains s
  | _ => false

/-- A regex word character (ASCII model of Python \w). -/
def isWordChar (c : Char) : Bool := c.isAlphanum || c = '_'

/-- The regex r'^<p><word-chars>' anchored at both ends, with at least one
word character after the literal p. -/
def matchesRefPattern (s : String) (p : String) : Bool :=
  matchAux s.toList p.toList
where
  matchAux : List Char → List Char → Bool
    | rest, [] => !rest.isEmpty && rest.all isWordChar
    | [], _ :: _ => false
    | c :: cs, q :: qs => c == q && matchAux cs qs

/-- PlanSanitizer._validate_target_reference: format mismatch is only a
warning; a non-string reference raises TypeError inside re.match. -/
def validate_target_reference (st : SanState) (target_ref : Value) :
    Except (PyErr × SanState) SanState :=
  match target_ref with
  | .str s =>
      if matchesRefPattern s "sketch_" || matchesRefPattern s "face_" ||
         matchesRefPattern s "edge_" || matchesRefPattern s "feature_" ||
         matchesRefPattern s "component_" then .ok st
      else .ok (addWarning st ("Unusual target reference format: " ++ s))
  | v => .error (.otherError ("expected string or bytes-like object, got '" ++ typeName v ++ "'"), st)

/-- PlanSanitizer._sanitize_single_operation: required fields, op_id format,
operation-type membership, parameter sanitization, target-reference check.
Raises ValidationError / ValidationWarning for rule violations and host errors
(TypeError on a non-string op_id fed to re.match, AttributeError for a
non-mapping operation) otherwise. -/
def sanitize_single_operation (profile : MachineProfile) (st : SanState)
    (operation : Value) : Except (PyErr × SanState) (Value × SanState) :=
  match operation with
  | .dict op =>
      if !dictHasKey op "op_id" then
        .error (.validationError "Missing required field: op_id", st)
      else if !dictHasKey op "op" then
        .error (.validationError "Missing required field: op", st)
      else if !dictHasKey op "params" then
        .error (.validationError "Missing required field: params", st)
      else
        match dictGet op "op_id" with
        | some (.str oid) =>
            if !isOpIdFormat oid then
              .error (.validationError ("Invalid op_id format: " ++ oid), st)
            else
              let opType := (dictGet op "op").getD .null
              if !isValidOpTag opType then
                .error (.validationError ("Unknown operation type: " ++ pyStr opType), st)
              else
                match sanitize_operation_params profile st opType ((dictGet op "params").getD .null) with
                | .error e => .error e
                | .ok (params', st') =>
                    let op' := dictSet op "params" params'
                    match dictGet op "target_ref" with
                    | some tr =>
                        match validate_target_reference st' tr with
                        | .error e => .error e
                        | .ok st'' => .ok (.dict op', st'')
                    | none => .ok (.dict op', st')
        | some v =>
            .error (.otherError ("expected string or bytes-like object, got '" ++ typeName v ++ "'"), st)
        | none => .error (.validationError "Missing required field: op_id", st)
  | v => .error (.otherError ("'" ++ typeName v ++ "' object has no attribute copy"), st)

/-- PlanSanitizer._sanitize_operations: per-operation loop.  A ValidationError
drops the operation (recording an error message), a ValidationWarning keeps the
ORIGINAL operation object (recording a warning message); any other exception
propagates to sanitize_plan's top-level handler. -/
def sanitize_operations (profile : MachineProfile) (st : SanState) :
    List Value → Nat → Except (PyErr × SanState) (List Value × SanState)
  | [], _ => .ok ([], st)
  | op :: rest, i =>
      match sanitize_single_operation profile st op with
      | .ok (op', st') =>
          match sanitize_operations profile st' rest (i + 1) with
          | .ok (rest', st'') => .ok (op' :: rest', st'')
          | .error e => .error e
      | .error (.validationError m, st') =>
          match sanitize_operations profile (addError st' ("Operation " ++ toString i ++ ": " ++ m)) rest (i + 1) with
          | .ok (rest', st'') => .ok (rest', st'')
          | .error e => .error e
      | .error (.validationWarning m, st') =>
          match sanitize_operations profile (addWarning st' ("Operation " ++ toString i ++ ": " ++ m)) rest (i + 1) with
          | .ok (rest', st'') => .ok (op :: rest', st'')
          | .error e => .error e
      | .error (e, st') => .error (e, st')

/-- PlanSanitizer._validate_plan_structure: required top-level fields checked
in order, then the shape and size of the operations list.  Each violation
raises ValidationError immediately. -/
def validate_plan_structure (settings : Settings) (plan : List (String × Value)) :
    Except PyErr Unit :=
  if !dictHasKey plan "plan_id" then .error (.validationError "Missing required field: plan_id")
  else if !dictHasKey plan "metadata" then .error (.validationError "Missing required field: metadata")
  else if !dictHasKey plan "operations" then .error (.validationError "Missing required field: operations")
  else
    match dictGet plan "operations" with
    | some (.list ops) =>
        if ops.length = 0 then .error (.validationError "Plan must contain at least one operation")
        else if ops.length > settings.max_operations_per_plan.getD 50 then
          .error (.validationError ("Plan exceeds maximum operations limit: " ++
            toString (settings.max_operations_per_plan.getD 50)))
        else .ok ()
    | _ => .error (.validationError "Operations must be a list")

/-- Truncation step for the natural-language prompt (strings and lists both
support len and slicing; other prompt values raise TypeError at len). -/
def promptStep (st : SanState) (md : List (String × Value)) :
    Except (PyErr × SanState) (List (String × Value) × SanState) :=
  let prompt := (dictGet md "natural_language_prompt").getD (.str "")
  match prompt with
  | .str s =>
      if s.length > 2000 then
        .ok (dictSet md "natural_language_prompt" (.str (String.mk (s.toList.take 2000))),
             addWarning st "Prompt truncated to 2000 characters")
      else .ok (md, st)
  | .list xs =>
      if xs.length > 2000 then
        .ok (dictSet md "natural_language_prompt" (.list (xs.take 2000)),
             addWarning st "Prompt truncated to 2000 characters")
      else .ok (md, st)
  | v => .error (.otherError ("object of type '" ++ typeName v ++ "' has no len()"), st)

/-- PlanSanitizer._sanitize_metadata: fill created_at (with the caller-supplied
wall-clock string `now`) and units, coerce unknown units to mm with a warning,
clamp an out-of-range confidence score with a warning, truncate an over-long
prompt with a warning.  A non-mapping metadata value or a non-numeric
confidence score raises a host error (TypeError). -/
def sanitize_metadata (settings : Settings) (now : String) (st : SanState)
    (plan : List (String × Value)) :
    Except (PyErr × SanState) (List (String × Value) × SanState) :=
  match dictGet plan "metadata" with
  | some (.dict md0) =>
      let md1 := if dictHasKey md0 "created_at" then md0
                 else dictSet md0 "created_at" (.str now)
      let md2 := if dictHasKey md1 "units" then md1
                 else dictSet md1 "units" (.str (settings.units_default.getD "mm"))
      let q : List (String × Value) × SanState :=
        match dictGet md2 "units" with
        | some (.str u) =>
            if (unit_conversions u).isSome then (md2, st)
            else (dictSet md2 "units" (.str "mm"),
                  addWarning st ("Unknown unit '" ++ u ++ "', defaulting to mm"))
        | some v =>
            (dictSet md2 "units" (.str "mm"),
             addWarning st ("Unknown unit '" ++ pyStr v ++ "', defaulting to mm"))
        | none => (md2, st)
      match dictGet q.1 "confidence_score" with
      | some (.num c _) =>
          let r : List (String × Value) × SanState :=
            if 0 ≤ c ∧ c ≤ 1 then (q.1, q.2)
            else (dictSet q.1 "confidence_score" (.num (max 0 (min 1 c)) false),
                  addWarning q.2 ("Invalid confidence score " ++ toString c ++ ", clamping to [0,1]"))
          match promptStep r.2 r.1 with
          | .error e => .error e
          | .ok (md', st') => .ok (dictSet plan "metadata" (.dict md'), st')
      | some v =>
          .error (.otherError ("'<=' not supported between instances of 'float' and '" ++
            typeName v ++ "'"), q.2)
      | none =>
          match promptStep q.2 q.1 with
          | .error e => .error e
          | .ok (md', st') => .ok (dictSet plan "metadata" (.dict md'), st')
  | some v => .error (.otherError ("argument of type '" ++ typeName v ++ "' is not sanitizable metadata"), st)
  | none => .error (.otherError "'metadata'", st)

/-- The set comprehension of op_ids in _validate_operation_dependencies
(a KeyError for a missing op_id or an AttributeError for a non-mapping
operation propagates; neither occurs for sanitized operations). -/
def opIdsOf : List Value → Except PyErr (List Value)
  | [] => .ok []
  | op :: rest =>
      match op with
      | .dict fs =>
          match getItem fs "op_id" with
          | .error e => .error e
          | .ok oid =>
              match opIdsOf rest with
              | .error e => .error e
              | .ok ids => .ok (oid :: ids)
      | v => .error (.otherError ("'" ++ typeName v ++ "' object has no op_id"))

/-- The inner dependency loop: each dependency id absent from the op_id set
appends an error message naming the declaring operation and the missing id
(op['op_id'] is re-read inside the message, so a missing key raises there). -/
def depCheckOne (ids : List Value) (fs : List (String × Value)) :
    SanState → List Value → Except (PyErr × SanState) SanState
  | st, [] => .ok st
  | st, d :: ds =>
      if ids.contains d then depCheckOne ids fs st ds
      else
        match getItem fs "op_id" with
        | .error e => .error (e, st)
        | .ok opId =>
            depCheckOne ids fs
              (addError st ("Operation " ++ pyStr opId ++
                " depends on non-existent operation " ++ pyStr d)) ds

/-- Outer loop of PlanSanitizer._validate_operation_dependencies. -/
def depCheckAll (ids : List Value) (st : SanState) :
    List Value → Except (PyErr × SanState) SanState
  | [] => .ok st
  | op :: rest =>
      match op with
      | .dict fs =>
          match dictGet fs "dependencies" with
          | some dv =>
              match iterElems dv with
              | .error e => .error (e, st)
              | .ok deps =>
                  match depCheckOne ids fs st deps with
                  | .error e => .error e
                  | .ok st' => depCheckAll ids st' rest
          | none => depCheckAll ids st rest
      | v => .error (.otherError ("argument of type '" ++ typeName v ++ "' is not iterable"), st)

/-- PlanSanitizer._validate_operation_dependencies: existence-only check of
declared dependency ids against the (sanitized) operations' op_ids.  No cycle
detection is performed. -/
def validate_operation_dependencies (st : SanState) (ops : List Value) :
    Except (PyErr × SanState) SanState :=
  match opIdsOf ops with
  | .error e => .error (e, st)
  | .ok ids => depCheckAll ids st ops

/-- PlanSanitizer._validate_geometric_feasibility: warning for zero-distance
extrudes and for fillet radii above 100mm.  The op and params subscripts and
the dimension extraction raise for malformed operations (propagating to the
top-level handler, since this stage has no per-operation catch). -/
def validate_geometric_feasibility (st : SanState) :
    List Value → Except (PyErr × SanState) SanState
  | [] => .ok st
  | op :: rest =>
      match op with
      | .dict fs =>
          match getItem fs "op", getItem fs "params" with
          | .ok op_type, .ok paramsv =>
              (match paramsv, op_type with
               | .dict params, .str "extrude" =>
                   (match extract_dimension_value ((dictGet params "distance").getD (.num 0 true)) with
                    | .error e => .error (e, st)
                    | .ok distance =>
                        if distance = 0 then
                          match getItem fs "op_id" with
                          | .error e => .error (e, st)
                          | .ok oid =>
                              validate_geometric_feasibility
                                (addWarning st ("Zero-distance extrude in operation " ++ pyStr oid)) rest
                        else validate_geometric_feasibility st rest)
               | .dict params, .str "fillet" =>
                   (match extract_dimension_value ((dictGet params "radius").getD (.num 0 true)) with
                    | .error e => .error (e, st)
                    | .ok radius =>
                        if radius > 100 then
                          match getItem fs "op_id" with
                          | .error e => .error (e, st)
                          | .ok oid =>
                              validate_geometric_feasibility
                                (addWarning st ("Very large fillet radius " ++ toString radius ++
                                  "mm in operation " ++ pyStr oid)) rest
                        else validate_geometric_feasibility st rest)
               | .dict _, _ => validate_geometric_feasibility st rest
               | v, _ => .error (.otherError ("'" ++ typeName v ++ "' object has no attribute get"), st))
          | .error e, _ => .error (e, st)
          | _, .error e => .error (e, st)
      | v => .error (.otherError ("'" ++ typeName v ++ "' object is not subscriptable"), st)

/-- PlanSanitizer._validate_manufacturing_constraints: warnings for hole/circle
diameters below the minimum tool diameter and for extrude/cut depths above the
maximum cut depth. -/
def validate_manufacturing_constraints (profile : MachineProfile) (st : SanState) :
    List Value → Except (PyErr × SanState) SanState
  | [] => .ok st
  | op :: rest =>
      match op with
      | .dict fs =>
          match getItem fs "op", getItem fs "params" with
          | .ok op_type, .ok paramsv =>
              (match paramsv with
               | .dict params =>
                   if Value.beq op_type (.str "create_hole") || Value.beq op_type (.str "draw_circle") then
                     match dictGet params "diameter" with
                     | some dv =>
                         (match extract_dimension_value dv with
                          | .error e => .error (e, st)
                          | .ok diameter =>
                              let min_tool := profile.min_tool_diameter.getD (mkRat 1 10)
                              if diameter < min_tool then
                                validate_manufacturing_constraints profile
                                  (addWarning st ("Hole diameter " ++ toString diameter ++
                                    "mm smaller than minimum tool diameter " ++ toString min_tool ++ "mm")) rest
                              else validate_manufacturing_constraints profile st rest)
                     | none => validate_manufacturing_constraints profile st rest
                   else if Value.beq op_type (.str "extrude") || Value.beq op_type (.str "cut") then
                     match dictGet params "distance" with
                     | some dv =>
                         (match extract_dimension_value dv with
                          | .error e => .error (e, st)
                          | .ok depth =>
                              let max_depth := profile.max_cut_depth.getD 100
                              if depth > max_depth then
                                validate_manufacturing_constraints profile
                                  (addWarning st ("Cut depth " ++ toString depth ++
                                    "mm exceeds machine capability " ++ toString max_depth ++ "mm")) rest
                              else validate_manufacturing_constraints profile st rest)
                     | none => validate_manufacturing_constraints profile st rest
                   else validate_manufacturing_constraints profile st rest
               | v => .error (.otherError ("'" ++ typeName v ++ "' object has no attribute get"), st))
          | .error e, _ => .error (e, st)
          | _, .error e => .error (e, st)
      | v => .error (.otherError ("'" ++ typeName v ++ "' object is not subscriptable"), st)

/-- The destructive-operation scan of PlanSanitizer._perform_safety_checks. -/
def destructiveScan (st : SanState) : List Value → Except (PyErr × SanState) SanState
  | [] => .ok st
  | op :: rest =>
      match op with
      | .dict fs =>
          match getItem fs "op" with
          | .error e => .error (e, st)
          | .ok opv =>
              if Value.beq opv (.str "cut") || Value.beq opv (.str "shell") ||
                 Value.beq opv (.str "delete_feature") then
                destructiveScan
                  (addWarning st ("Plan contains potentially destructive operation: " ++ pyStr opv)) rest
              else destructiveScan st rest
      | v => .error (.otherError ("'" ++ typeName v ++ "' object is not subscriptable"), st)

/-- PlanSanitizer._perform_safety_checks: advisory warnings for an estimated
duration above the configured ceiling and for destructive operation types. -/
def perform_safety_checks (settings : Settings) (st : SanState)
    (plan : List (String × Value)) : Except (PyErr × SanState) SanState :=
  match getItem plan "metadata" with
  | .error e => .error (e, st)
  | .ok (.dict md) =>
      (match (dictGet md "estimated_duration_seconds").getD (.num 0 true) with
       | .num est _ =>
           let max_time := settings.max_execution_time.getD 300
           let st1 := if est > max_time then
               addWarning st ("Estimated execution time " ++ toString est ++
                 "s exceeds maximum " ++ toString max_time ++ "s")
             else st
           (match getItem plan "operations" with
            | .error e => .error (e, st1)
            | .ok (.list ops) => destructiveScan st1 ops
            | .ok v => .error (.otherError ("'" ++ typeName v ++ "' object is not iterable here"), st1))
       | v => .error (.otherError ("'>' not supported between instances of '" ++
           typeName v ++ "' and 'int'"), st))
  | .ok v => .error (.otherError ("'" ++ typeName v ++ "' object has no attribute get"), st)

/-- Steps 1-7 of PlanSanitizer.sanitize_plan (the body of its try block),
threading the message buckets and returning the sanitized plan. -/
def sanitize_plan_run (profile : MachineProfile) (settings : Settings) (now : String)
    (plan : List (String × Value)) :
    Except (PyErr × SanState) (List (String × Value) × SanState) :=
  let st0 : SanState := ⟨[], []⟩
  match validate_plan_structure settings plan with
  | .error e => .error (e, st0)
  | .ok () =>
      match sanitize_metadata settings now st0 plan with
      | .error e => .error e
      | .ok (plan1, st1) =>
          match dictGet plan1 "operations" with
          | some (.list ops) =>
              (match sanitize_operations profile st1 ops 0 with
               | .error e => .error e
               | .ok (ops', st2) =>
                   let plan2 := dictSet plan1 "operations" (.list ops')
                   match validate_operation_dependencies st2 ops' with
                   | .error e => .error e
                   | .ok st3 =>
                       match validate_geometric_feasibility st3 ops' with
                       | .error e => .error e
                       | .ok st4 =>
                           match validate_manufacturing_constraints profile st4 ops' with
                           | .error e => .error e
                           | .ok st5 =>
                               match perform_safety_checks settings st5 plan2 with
                               | .error e => .error e
                               | .ok st6 => .ok (plan2, st6))
          | _ => .error (.otherError "'operations'", st1)

/-- The result assembly at the end of sanitize_plan: in strict mode a
non-empty warning bucket is appended to the error bucket, then the (possibly
extended) error bucket and the warning bucket are concatenated into the
message list; is_valid is the emptiness of the extended error bucket. -/
def assemble_result (strict_mode : Bool) (plan : List (String × Value)) (st : SanState) :
    Bool × Value × List String :=
  let errs := if strict_mode && !st.warnings.isEmpty then st.errors ++ st.warnings else st.errors
  (errs.isEmpty, .dict plan, errs ++ st.warnings)

/-- PlanSanitizer.sanitize_plan.  The logging statement on its first line reads
plan.get BEFORE the try block, so a non-mapping plan raises AttributeError out
of the public boundary (the .error case).  Inside the try, any exception is
caught and converted into a failure result whose message list is the error
bucket accumulated so far plus one internal-error message.  (On that failure
path the source returns the original plan object, possibly carrying in-place
metadata mutations through shared references; the model returns the untouched
input, which no claim inspects.) -/
def sanitize_plan (profile : MachineProfile) (settings : Settings) (now : String)
    (plan : Value) (strict_mode : Bool) : Except PyErr (Bool × Value × List String) :=
  match plan with
  | .dict fields =>
      match sanitize_plan_run profile settings now fields with
      | .ok (plan', st) => .ok (assemble_result strict_mode plan' st)
      | .error (e, st) =>
          .ok (false, .dict fields, st.errors ++ ["Internal sanitization error: " ++ errText e])
  | v => .error (.otherError ("'" ++ typeName v ++ "' object has no attribute 'get'"))

/-!  Executor (src/fusion_addin/executor.py), development branch
(FUSION_AVAILABLE = False: the adsk imports fail outside the Fusion host,
which is how this repository runs and is tested; the Fusion-API branches are
commented out or unreachable). -/

/-- The executor's _extract_dimension_value (same logic as the sanitizer's but
raising ExecutionError). -/
def exec_extract_dimension_value (dimension : Value) : Except PyErr ℚ :=
  match dimension with
  | .num q _ => .ok q
  | .dict fields =>
      match dictGet fields "value" with
      | some v => pyFloat v
      | none => .error (.executionError ("Invalid dimension format: " ++ pyStr (.dict fields)))
  | v => .error (.executionError ("Invalid dimension format: " ++ pyStr v))

/-- The per-operation result dict built by each handler (dev branch).
Wall-clock-free; the keys are exactly those of the source dicts, with
`dimensions := none` when the handler's dict has no dimensions key. -/
structure OpRes : Type where
  success : Bool
  operation_id : Value
  feature_created : Value
  timeline_node : Value
  feature_type : String
  dimensions : Option (List (String × Value))

/-- PlanExecutor._execute_create_sketch (dev branch). -/
def execute_create_sketch (op_id : Value) (params : Value) : Except PyErr OpRes :=
  match pyGet params "name" (.str ("Sketch_" ++ pyStr op_id)) with
  | .error e => .error e
  | .ok sketch_name =>
      .ok { success := true, operation_id := op_id, feature_created := sketch_name,
            timeline_node := .str ("Timeline_Sketch_" ++ pyStr op_id),
            feature_type := "sketch", dimensions := none }

/-- PlanExecutor._execute_draw_rectangle (dev branch). -/
def execute_draw_rectangle (op_id : Value) (params : Value) : Except PyErr OpRes :=
  match pyGet params "width" (.num 10 true) with
  | .error e => .error e
  | .ok wv =>
      match exec_extract_dimension_value wv with
      | .error e => .error e
      | .ok width =>
          match pyGet params "height" (.num 10 true) with
          | .error e => .error e
          | .ok hv =>
              match exec_extract_dimension_value hv with
              | .error e => .error e
              | .ok height =>
                  .ok { success := true, operation_id := op_id,
                        feature_created := .str ("Rectangle_" ++ pyStr op_id),
                        timeline_node := .null, feature_type := "sketch_geometry",
                        dimensions := some [("width", .num width false), ("height", .num height false)] }

/-- PlanExecutor._execute_draw_circle (dev branch): radius preferred over
diameter; neither present raises ExecutionError.  (The membership test
`'radius' in params` raises TypeError for non-container params.) -/
def execute_draw_circle (op_id : Value) (params : Value) : Except PyErr OpRes :=
  match params with
  | .dict fs =>
      match dictGet fs "radius" with
      | some rv =>
          (match exec_extract_dimension_value rv with
           | .error e => .error e
           | .ok radius => mkRes op_id (ratMul radius 2))
      | none =>
          match dictGet fs "diameter" with
          | some dv =>
              (match exec_extract_dimension_value dv with
               | .error e => .error e
               | .ok diameter => mkRes op_id diameter)
          | none => .error (.executionError "Circle requires radius or diameter")
  | v => .error (.otherError ("argument of type '" ++ typeName v ++ "' is not iterable"))
where
  mkRes (op_id : Value) (diameter : ℚ) : Except PyErr OpRes :=
    .ok { success := true, operation_id := op_id,
          feature_created := .str ("Circle_" ++ pyStr op_id),
          timeline_node := .null, feature_type := "sketch_geometry",
          dimensions := some [("diameter", .num diameter false)] }

/-- PlanExecutor._execute_draw_polygon (dev branch). -/
def execute_draw_polygon (op_id : Value) (params : Value) : Except PyErr OpRes :=
  match pyGet params "sides" (.num 6 true) with
  | .error e => .error e
  | .ok sv =>
      match pyInt sv with
      | .error e => .error e
      | .ok sides =>
          .ok { success := true, operation_id := op_id,
                feature_created := .str ("Polygon_" ++ pyStr op_id),
                timeline_node := .null, feature_type := "sketch_geometry",
                dimensions := some [("sides", .num (sides : ℚ) true)] }

/-- Shared shape of the simple dev-branch handlers that read one dimension
parameter and produce one timeline node. -/
def simpleDimHandler (op_id : Value) (params : Value) (key : String) (dflt : Value)
    (featPrefix timelinePrefix ftype dimKey : String) : Except PyErr OpRes :=
  match pyGet params key dflt with
  | .error e => .error e
  | .ok dv =>
      match exec_extract_dimension_value dv with
      | .error e => .error e
      | .ok d =>
          .ok { success := true, operation_id := op_id,
                feature_created := .str (featPrefix ++ pyStr op_id),
                timeline_node := .str (timelinePrefix ++ pyStr op_id),
                feature_type := ftype, dimensions := some [(dimKey, .num d false)] }

/-- PlanExecutor._execute_extrude (dev branch). -/
def execute_extrude (op_id : Value) (params : Value) : Except PyErr OpRes :=
  simpleDimHandler op_id params "distance" (.num 10 true) "Extrude_" "Timeline_Extrude_" "extrude" "distance"

/-- PlanExecutor._execute_cut. -/
def execute_cut (op_id : Value) (params : Value) : Except PyErr OpRes :=
  simpleDimHandler op_id params "distance" (.num 5 true) "Cut_" "Timeline_Cut_" "cut" "distance"

/-- PlanExecutor._execute_fillet. -/
def execute_fillet (op_id : Value) (params : Value) : Except PyErr OpRes :=
  simpleDimHandler op_id params "radius" (.num 2 true) "Fillet_" "Timeline_Fillet_" "fillet" "radius"

/-- PlanExecutor._execute_chamfer. -/
def execute_chamfer (op_id : Value) (params : Value) : Except PyErr OpRes :=
  simpleDimHandler op_id params "distance" (.num 1 true) "Chamfer_" "Timeline_Chamfer_" "chamfer" "distance"

/-- PlanExecutor._execute_create_hole (dev branch). -/
def execute_create_hole (op_id : Value) (params : Value) : Except PyErr OpRes :=
  simpleDimHandler op_id params "diameter" (.num 5 true) "Hole_" "Timeline_Hole_" "hole" "diameter"

/-- PlanExecutor._execute_shell. -/
def execute_shell (op_id : Value) (params : Value) : Except PyErr OpRes :=
  simpleDimHandler op_id params "thickness" (.num 2 true) "Shell_" "Timeline_Shell_" "shell" "thickness"

/-- PlanExecutor._execute_pattern_linear: the count is the raw params value
(no int coercion in the source), the spacing is dimension-extracted. -/
def execute_pattern_linear (op_id : Value) (params : Value) : Except PyErr OpRes :=
  match pyGet params "count_1" (.num 3 true) with
  | .error e => .error e
  | .ok count =>
      match pyGet params "distance_1" (.num 10 true) with
      | .error e => .error e
      | .ok dv =>
          match exec_extract_dimension_value dv with
          | .error e => .error e
          | .ok spacing =>
              .ok { success := true, operation_id := op_id,
                    feature_created := .str ("LinearPattern_" ++ pyStr op_id),
                    timeline_node := .str ("Timeline_LinearPattern_" ++ pyStr op_id),
                    feature_type := "pattern_linear",
                    dimensions := some [("count", count), ("spacing", .num spacing false)] }

/-- PlanExecutor._execute_pattern_circular. -/
def execute_pattern_circular (op_id : Value) (params : Value) : Except PyErr OpRes :=
  match pyGet params "count_1" (.num 6 true) with
  | .error e => .error e
  | .ok d1 =>
      match pyGet params "count" d1 with
      | .error e => .error e
      | .ok cv =>
          match pyInt cv with
          | .error e => .error e
          | .ok count =>
              match pyGet params "angle" (.dict [("value", .num 360 true), ("unit", .str "deg")]) with
              | .error e => .error e
              | .ok av =>
                  match exec_extract_dimension_value av with
                  | .error e => .error e
                  | .ok angle =>
                      .ok { success := true, operation_id := op_id,
                            feature_created := .str ("CircularPattern_" ++ pyStr op_id),
                            timeline_node := .str ("Timeline_CircularPattern_" ++ pyStr op_id),
                            feature_type := "pattern_circular",
                            dimensions := some [("count", .num (count : ℚ) true),
                                                ("angle", .num angle false)] }

/-- PlanExecutor._execute_pattern_rectangular. -/
def execute_pattern_rectangular (op_id : Value) (params : Value) : Except PyErr OpRes :=
  match pyGet params "count_x" (.num 2 true) with
  | .error e => .error e
  | .ok dx =>
      match pyGet params "count_1" dx with
      | .error e => .error e
      | .ok c1v =>
          match pyInt c1v with
          | .error e => .error e
          | .ok count_1 =>
              match pyGet params "count_y" (.num 2 true) with
              | .error e => .error e
              | .ok dy =>
                  match pyGet params "count_2" dy with
                  | .error e => .error e
                  | .ok c2v =>
                      match pyInt c2v with
                      | .error e => .error e
                      | .ok count_2 =>
                          match pyGet params "spacing_x" (.num 10 true) with
                          | .error e => .error e
                          | .ok sx =>
                              match pyGet params "distance_1" sx with
                              | .error e => .error e
                              | .ok d1v =>
                                  match exec_extract_dimension_value d1v with
                                  | .error e => .error e
                                  | .ok dist_1 =>
                                      match pyGet params "spacing_y" (.num 10 true) with
                                      | .error e => .error e
                                      | .ok sy =>
                                          match pyGet params "distance_2" sy with
                                          | .error e => .error e
                                          | .ok d2v =>
                                              match exec_extract_dimension_value d2v with
                                              | .error e => .error e
                                              | .ok dist_2 =>
                                                  .ok { success := true, operation_id := op_id,
                                                        feature_created := .str ("RectangularPattern_" ++ pyStr op_id),
                                                        timeline_node := .str ("Timeline_RectangularPattern_" ++ pyStr op_id),
                                                        feature_type := "pattern_rectangular",
                                                        dimensions := some [("count_1", .num (count_1 : ℚ) true),
                                                                            ("count_2", .num (count_2 : ℚ) true),
                                                                            ("distance_1", .num dist_1 false),
                                                                            ("distance_2", .num dist_2 false)] }

/-- The operation tags with a handler branch in
PlanExecutor._execute_single_operation, in dispatch order. -/
def executor_handled_ops : List String :=
  ["create_sketch", "draw_rectangle", "draw_circle", "draw_polygon",
   "extrude", "cut", "fillet", "chamfer", "create_hole",
   "pattern_linear", "pattern_circular", "pattern_rectangular", "shell"]

/-- PlanExecutor._execute_single_operation: read op, op_id, params (KeyError
for missing keys), then dispatch on the operation tag; an unrecognized tag
raises the defensive ExecutionError. -/
def execute_single_operation (operation : List (String × Value)) : Except PyErr OpRes :=
  match getItem operation "op" with
  | .error e => .error e
  | .ok op_type =>
      match getItem operation "op_id" with
      | .error e => .error e
      | .ok op_id =>
          match getItem operation "params" with
          | .error e => .error e
          | .ok params =>
              if Value.beq op_type (.str "create_sketch") then execute_create_sketch op_id params
              else if Value.beq op_type (.str "draw_rectangle") then execute_draw_rectangle op_id params
              else if Value.beq op_type (.str "draw_circle") then execute_draw_circle op_id params
              else if Value.beq op_type (.str "draw_polygon") then execute_draw_polygon op_id params
              else if Value.beq op_type (.str "extrude") then execute_extrude op_id params
              else if Value.beq op_type (.str "cut") then execute_cut op_id params
              else if Value.beq op_type (.str "fillet") then execute_fillet op_id params
              else if Value.beq op_type (.str "chamfer") then execute_chamfer op_id params
              else if Value.beq op_type (.str "create_hole") then execute_create_hole op_id params
              else if Value.beq op_type (.str "pattern_linear") then execute_pattern_linear op_id params
              else if Value.beq op_type (.str "pattern_circular") then execute_pattern_circular op_id params
              else if Value.beq op_type (.str "pattern_rectangular") then execute_pattern_rectangular op_id params
              else if Value.beq op_type (.str "shell") then execute_shell op_id params
              else .error (.executionError ("Unsupported operation type: " ++ pyStr op_type))

/-- The executor's mutable state: self.timeline_mapping, self.created_features,
self.current_plan.  (The Fusion document handles and wall-clock fields have no
observable dev-branch state.) -/
structure ExecState : Type where
  timeline_mapping : List (Value × Value)
  created_features : List Value
  current_plan : Option Value

/-- The loop body's bookkeeping after a successful dispatch: record the
timeline node when the result is successful and the node truthy, and the
created feature when truthy.  (op_id is present whenever dispatch succeeded.) -/
def recordResult (od : List (String × Value)) (res : OpRes) (st : ExecState) : ExecState :=
  let st1 := if res.success && isTruthy res.timeline_node then
      { st with timeline_mapping :=
          mapInsert st.timeline_mapping ((dictGet od "op_id").getD .null) res.timeline_node }
    else st
  if isTruthy res.feature_created then
    { st1 with created_features := st1.created_features ++ [res.feature_created] }
  else st1

/-- PlanExecutor._execute_operations: sequential dispatch.  Any exception from
a dispatch is wrapped into ExecutionError "Operation <op_id-or-index> failed:
<str(e)>" and re-raised, aborting the loop (the failure record appended to the
local results list is discarded with it).  A non-mapping operation raises
AttributeError out of the wrapping itself (operation.get in the except block). -/
def execute_operations : List Value → Nat → ExecState →
    Except (PyErr × ExecState) (List OpRes × ExecState)
  | [], _, st => .ok ([], st)
  | op :: rest, i, st =>
      match op with
      | .dict od =>
          match execute_single_operation od with
          | .ok res =>
              (match execute_operations rest (i + 1) (recordResult od res st) with
               | .ok (results, st') => .ok (res :: results, st')
               | .error e => .error e)
          | .error e =>
              .error (.executionError ("Operation " ++ pyStr ((dictGet od "op_id").getD (.num i true)) ++
                " failed: " ++ errText e), st)
      | v => .error (.otherError ("'" ++ typeName v ++ "' object has no attribute 'get'"), st)

/-- ExecutionResult dict (wall-clock fields omitted).  `none` marks keys the
source does not put in that variant of the dict. -/
structure ExecutionResult : Type where
  success : Bool
  plan_id : Value
  error_message : Option String
  operations_executed : Option Nat
  operations_attempted : Option Nat
  features_created : Option (List Value)
  timeline_mapping : Option (List (Value × Value))
  partial_timeline_mapping : Option (List (Value × Value))
  execution_results : Option (List OpRes)

/-- The except-branch of execute_plan: build the failure result carrying the
timeline entries recorded so far.  Computing operations_attempted re-reads
plan.get('operations', []) and takes its len, which itself raises (escaping
execute_plan) when the operations value has no len. -/
def execFail (fields : List (String × Value)) (st : ExecState) (e : PyErr) :
    Except PyErr (ExecutionResult × ExecState) :=
  match pyLen ((dictGet fields "operations").getD (.list [])) with
  | .error e2 => .error e2
  | .ok n =>
      .ok ({ success := false, plan_id := (dictGet fields "plan_id").getD .null,
             error_message := some (errText e), operations_executed := none,
             operations_attempted := some n, features_created := none,
             timeline_mapping := none, partial_timeline_mapping := some st.timeline_mapping,
             execution_results := none }, st)

/-- PlanExecutor.execute_plan: clear the timeline mapping and feature list,
open the transaction (no observable dev-branch state), dispatch all operations
in array order, and return either the success result or — when the loop raised
— the failure result built from the partially-filled state.  A non-mapping
plan raises AttributeError out of the public boundary (both the result dict
and the except block call plan.get). -/
def execute_plan (_st : ExecState) (plan : Value) : Except PyErr (ExecutionResult × ExecState) :=
  match plan with
  | .dict fields =>
      let st0 : ExecState := { timeline_mapping := [], created_features := [],
                               current_plan := some plan }
      match getItem fields "operations" with
      | .error e => execFail fields st0 e
      | .ok opsv =>
          match iterElems opsv with
          | .error e => execFail fields st0 e
          | .ok ops =>
              match execute_operations ops 0 st0 with
              | .error (e, st1) => execFail fields st1 e
              | .ok (results, st1) =>
                  match pyLen ((dictGet fields "operations").getD (.list [])) with
                  | .error e => .error e
                  | .ok n =>
                      .ok ({ success := true, plan_id := (dictGet fields "plan_id").getD .null,
                             error_message := none, operations_executed := some n,
                             operations_attempted := none,
                             features_created := some st1.created_features,
                             timeline_mapping := some st1.timeline_mapping,
                             partial_timeline_mapping := none,
                             execution_results := some results }, st1)
  | v => .error (.otherError ("'" ++ typeName v ++ "' object has no attribute 'get'"))

/-- Python str.title(): uppercase each alphabetic character that follows a
non-alphabetic one, lowercase the others. -/
def pyTitle (s : String) : String :=
  String.mk (titleAux true s.toList)
where
  titleAux : Bool → List Char → List Char
    | _, [] => []
    | startOfWord, c :: cs =>
        if c.isAlpha then
          (if startOfWord then c.toUpper else c.toLower) :: titleAux false cs
        else c :: titleAux true cs

/-- One estimated-feature line of PlanExecutor._mock_preview_execution. -/
def preview_feature_line (op : Value) : Except PyErr String :=
  match op with
  | .dict od =>
      let op_type := (dictGet od "op").getD .null
      if Value.beq op_type (.str "create_sketch") then
        match pyGet ((dictGet od "params").getD (.dict [])) "name" (.str "Unnamed") with
        | .error e => .error e
        | .ok nm => .ok ("Sketch: " ++ pyStr nm)
      else if Value.beq op_type (.str "extrude") || Value.beq op_type (.str "cut") then
        match pyGet ((dictGet od "params").getD (.dict [])) "distance" (.num 0 true) with
        | .error e => .error e
        | .ok dv =>
            match exec_extract_dimension_value dv with
            | .error e => .error e
            | .ok d =>
                match op_type with
                | .str t => .ok (pyTitle t ++ ": " ++ toString d ++ "mm")
                | _ => .error (.otherError "unreachable title")
      else if Value.beq op_type (.str "create_hole") then
        match pyGet ((dictGet od "params").getD (.dict [])) "diameter" (.num 0 true) with
        | .error e => .error e
        | .ok dv =>
            match exec_extract_dimension_value dv with
            | .error e => .error e
            | .ok d => .ok ("Hole: ⌀" ++ toString d ++ "mm")
      else
        match op_type with
        | .str t => .ok (pyTitle t)
        | v => .error (.otherError ("'" ++ typeName v ++ "' object has no attribute title"))
  | v => .error (.otherError ("'" ++ typeName v ++ "' object has no attribute 'get'"))

/-- The preview payload built by _mock_preview_execution (wall-clock-free
fields; the constant bounding-box dict is carried verbatim as a Value). -/
structure PreviewData : Type where
  operations_previewed : Nat
  estimated_features : List String
  bounding_box_changes : Value
  warnings : List Value
  preview_summary : String

/-- The constant bounding-box estimate of _mock_preview_execution. -/
def mockBoundingBox : Value :=
  .dict [("before", .dict [("min", .list [.num 0 true, .num 0 true, .num 0 true]),
                           ("max", .list [.num 0 true, .num 0 true, .num 0 true])]),
         ("after", .dict [("min", .list [.num (-50) true, .num (-25) true, .num 0 true]),
                          ("max", .list [.num 50 true, .num 25 true, .num 10 true])])]

/-- PlanExecutor._mock_preview_execution: a pure feature-by-feature estimate of
the plan; never touches executor state. -/
def mock_preview_execution (plan : Value) : Except PyErr PreviewData :=
  match pyGet plan "operations" (.list []) with
  | .error e => .error e
  | .ok opsv =>
      match pyLen opsv with
      | .error e => .error e
      | .ok n =>
          match iterElems opsv with
          | .error e => .error e
          | .ok ops =>
              match ops.mapM preview_feature_line with
              | .error e => .error e
              | .ok feats =>
                  .ok { operations_previewed := n, estimated_features := feats,
                        bounding_box_changes := mockBoundingBox, warnings := [],
                        preview_summary := "Preview would create " ++ toString n ++ " operations" }

/-- PreviewResult dict (wall-clock fields omitted). -/
structure PreviewResult : Type where
  success : Bool
  plan_id : Value
  preview_data : Option PreviewData
  operations_count : Option Nat
  error : Option String

/-- PlanExecutor.preview_plan_in_sandbox (the source calls the mock preview in
both branches; the sandbox-component Fusion calls are commented out).  The
logging statement reads plan.get before the try block, so a non-mapping plan
raises AttributeError; otherwise every exception is caught and returned as a
failure result.  No executor state is read or written on any path. -/
def preview_plan_in_sandbox (st : ExecState) (plan : Value) :
    Except PyErr (PreviewResult × ExecState) :=
  match plan with
  | .dict fields =>
      match mock_preview_execution plan with
      | .ok data =>
          (match pyLen ((dictGet fields "operations").getD (.list [])) with
           | .error e =>
               .ok ({ success := false, plan_id := (dictGet fields "plan_id").getD .null,
                      preview_data := none, operations_count := none,
                      error := some (errText e) }, st)
           | .ok n =>
               .ok ({ success := true, plan_id := (dictGet fields "plan_id").getD .null,
                      preview_data := some data, operations_count := some n,
                      error := none }, st))
      | .error e =>
          .ok ({ success := false, plan_id := (dictGet fields "plan_id").getD .null,
                 preview_data := none, operations_count := none,
                 error := some (errText e) }, st)
  | v => .error (.otherError ("'" ++ typeName v ++ "' object has no attribute 'get'"))

/-!  Concrete inputs and auxiliary (spec-side) functions used by the claim
theorems below. -/

/-- Character-list prefix test. -/
def listStartsWithCh : List Char → List Char → Bool
  | _, [] => true
  | [], _ :: _ => false
  | c :: cs, p :: ps => c == p && listStartsWithCh cs ps

/-- Character-list substring test. -/
def listFindSub : List Char → List Char → Bool
  | [], pat => listStartsWithCh [] pat
  | c :: rest, pat => listStartsWithCh (c :: rest) pat || listFindSub rest pat

/-- Substring test (used to state that a message does or does not mention a
given identifier). -/
def strContainsSub (s pat : String) : Bool :=
  listFindSub s.toList pat.toList

/-- Bool test for the defensive unsupported-operation error of the dispatcher. -/
def isUnsupportedErr (r : Except PyErr OpRes) (t : String) : Bool :=
  match r with
  | .error (.executionError m) => m == ("Unsupported operation type: " ++ t)
  | _ => false

/-- The explicit value of the dependency-existence check's error output: one
message per declared dependency id that is not among the operations' op_ids,
in operation order (this is the spec-side characterization compared against
the source loop in the C8 theorem). -/
def depErrorsOf (ids : List Value) (ops : List Value) : List String :=
  ops.flatMap (fun op =>
    match op with
    | .dict fs =>
        (match dictGet fs "dependencies", dictGet fs "op_id" with
         | some (.list ds), some oid =>
             ds.filterMap (fun d =>
               if ids.contains d then none
               else some ("Operation " ++ pyStr oid ++ " depends on non-existent operation " ++ pyStr d))
         | _, _ => [])
    | _ => [])

/-- Shape hypothesis for the C8 characterization: an operation is a mapping
with an op_id whose dependencies value, when present, is a list (which holds
for every operation that survives per-operation sanitization). -/
def depCheckReady (op : Value) : Prop :=
  ∃ fs, op = .dict fs ∧ (dictGet fs "op_id").isSome = true ∧
    (dictGet fs "dependencies" = none ∨ ∃ ds, dictGet fs "dependencies" = some (.list ds))

/-- The executor state at the start of an execute_plan call (mapping and
feature list cleared, current plan recorded). -/
def initExecState (plan : Value) : ExecState :=
  { timeline_mapping := [], created_features := [], current_plan := some plan }

/-- Well-formed metadata reused by the concrete test plans. -/
def stdMetadata : Value :=
  .dict [("created_at", .str "t"), ("units", .str "mm"),
         ("natural_language_prompt", .str "x"), ("estimated_duration_seconds", .num 1 true)]

/-- C3 counterexample input: a plan that sanitizes cleanly but whose
draw_rectangle width is a bare number. -/
def C3plan : Value :=
  .dict [("plan_id", .str "p3"), ("metadata", stdMetadata),
         ("operations", .list [
           .dict [("op_id", .str "op_1"), ("op", .str "draw_rectangle"),
                  ("params", .dict [("width", .num 100 true),
                                    ("height", .dict [("value", .num 50 true), ("unit", .str "mm")])])]])]

/-- The params dict of the single operation of the sanitized C3 plan: the
bare-number width is untouched, the dict-shaped height is canonicalized. -/
def C3expectedParams : List (String × Value) :=
  [("width", .num 100 true),
   ("height", .dict [("value", .num 50 false), ("unit", .str "mm"),
                     ("original_value", .num 50 true), ("original_unit", .str "mm")])]

/-- The sanitized output plan for `C3plan`. -/
def C3expected : Value :=
  .dict [("plan_id", .str "p3"), ("metadata", stdMetadata),
         ("operations", .list [
           .dict [("op_id", .str "op_1"), ("op", .str "draw_rectangle"),
                  ("params", .dict C3expectedParams)]])]

/-- C6 concrete input: the only defect is a circle diameter below the default
machine profile's 0.5mm minimum tool diameter. -/
def C6plan : Value :=
  .dict [("plan_id", .str "p6"), ("metadata", stdMetadata),
         ("operations", .list [
           .dict [("op_id", .str "op_1"), ("op", .str "draw_circle"),
                  ("params", .dict [("diameter", .dict [("value", .num (mkRat 3 10) false), ("unit", .str "mm")])])]])]

/-- A minimal plan that sanitizes with empty message buckets (used to witness
the general bucket laws). -/
def cleanFields : List (String × Value) :=
  [("plan_id", .str "p0"), ("metadata", stdMetadata),
   ("operations", .list [
     .dict [("op_id", .str "op_1"), ("op", .str "create_sketch"), ("params", .dict [])]])]

/-- C8 counterexample input: the only operation has an invalid op_id format
AND declares a dependency on the non-existent op_99. -/
def C8plan : Value :=
  .dict [("plan_id", .str "p8"), ("metadata", stdMetadata),
         ("operations", .list [
           .dict [("op_id", .str "bad"), ("op", .str "create_sketch"), ("params", .dict []),
                  ("dependencies", .list [.str "op_99"])]])]

/-- Sanitized output for `C8plan` (the offending operation is dropped). -/
def C8expected : Value :=
  .dict [("plan_id", .str "p8"), ("metadata", stdMetadata), ("operations", .list [])]

/-- A plan whose two operations depend on each other (a dependency cycle whose
ids all exist). -/
def C8cyclePlan : Value :=
  .dict [("plan_id", .str "p8c"), ("metadata", stdMetadata),
         ("operations", .list [
           .dict [("op_id", .str "op_1"), ("op", .str "create_sketch"), ("params", .dict []),
                  ("dependencies", .list [.str "op_2"])],
           .dict [("op_id", .str "op_2"), ("op", .str "create_sketch"), ("params", .dict []),
                  ("dependencies", .list [.str "op_1"])]])]

/-- A plan whose single (valid) operation declares a missing dependency. -/
def C8missingPlan : Value :=
  .dict [("plan_id", .str "p8m"), ("metadata", stdMetadata),
         ("operations", .list [
           .dict [("op_id", .str "op_1"), ("op", .str "create_sketch"), ("params", .dict []),
                  ("dependencies", .list [.str "op_9"])]])]

/-- C10 counterexample input: two cut operations, so the same destructive-
operation warning string enters the warning bucket twice. -/
def C10msg : String := "Plan contains potentially destructive operation: cut"

def C10cutParams : Value :=
  .dict [("distance", .dict [("value", .num 5 true), ("unit", .str "mm")])]

def C10plan : Value :=
  .dict [("plan_id", .str "p10"), ("metadata", stdMetadata),
         ("operations", .list [
           .dict [("op_id", .str "op_1"), ("op", .str "cut"), ("params", C10cutParams)],
           .dict [("op_id", .str "op_2"), ("op", .str "cut"), ("params", C10cutParams)]])]

/-- Canonicalized cut params of the sanitized C10 plan. -/
def C10expectedParams : Value :=
  .dict [("distance", .dict [("value", .num 5 false), ("unit", .str "mm"),
                             ("original_value", .num 5 true), ("original_unit", .str "mm")])]

def C10expected : Value :=
  .dict [("plan_id", .str "p10"), ("metadata", stdMetadata),
         ("operations", .list [
           .dict [("op_id", .str "op_1"), ("op", .str "cut"), ("params", C10expectedParams)],
           .dict [("op_id", .str "op_2"), ("op", .str "cut"), ("params", C10expectedParams)]])]

/-- C1 witness input: 3 operations where operation 2 (index 1) raises during
dispatch (a circle with neither radius nor diameter). -/
def C1op1 : List (String × Value) :=
  [("op_id", .str "op_1"), ("op", .str "create_sketch"), ("params", .dict [])]

def C1op2 : List (String × Value) :=
  [("op_id", .str "op_2"), ("op", .str "draw_circle"), ("params", .dict [])]

def C1op3 : List (String × Value) :=
  [("op_id", .str "op_3"), ("op", .str "extrude"), ("params", .dict [])]

def C1fields : List (String × Value) :=
  [("plan_id", .str "p1"),
   ("operations", .list [.dict C1op1, .dict C1op2, .dict C1op3])]

/-- The executor state after the successful prefix (operation 1 only). -/
def C1statePre : ExecState :=
  { timeline_mapping := [(.str "op_1", .str "Timeline_Sketch_op_1")],
    created_features := [.str "Sketch_op_1"],
    current_plan := some (.dict C1fields) }

/-- C9 concrete inputs: a plan and a non-trivial pre-existing executor state. -/
def C9fields : List (String × Value) :=
  [("plan_id", .str "p9"),
   ("operations", .list [
     .dict [("op_id", .str "op_1"), ("op", .str "create_sketch"),
            ("params", .dict [("name", .str "base")])],
     .dict [("op_id", .str "op_2"), ("op", .str "extrude"),
            ("params", .dict [("distance", .dict [("value", .num 5 true), ("unit", .str "mm")])])]])]

def C9plan : Value := .dict C9fields

def C9state : ExecState :=
  { timeline_mapping := [(.str "op_0", .str "Timeline_Node_x")],
    created_features := [.str "Feature_x"],
    current_plan := none }

/-- The preview payload computed for `C9plan`. -/
def C9data : PreviewData :=
  { operations_previewed := 2,
    estimated_features := ["Sketch: base", "Extrude: 5mm"],
    bounding_box_changes := mockBoundingBox, warnings := [],
    preview_summary := "Preview would create 2 operations" }

/-!  Theorems. -/

/-- `ratMul` is ordinary rational multiplication. -/
theorem ratMul_eq (a b : ℚ) : ratMul a b = a * b := by
  rw [ratMul, Rat.mkRat_eq_divInt, Nat.cast_mul, ← Rat.divInt_mul_divInt',
      Rat.num_divInt_den, Rat.num_divInt_den]

/-- Value equality on strings is string equality. -/
theorem value_beq_str (a b : String) : Value.beq (.str a) (.str b) = (a == b) := rfl

/-- Evaluation of _convert_dimension on a dimension dict with a numeric value
and a recognized unit string: the canonical mm rewrite, state unchanged. -/
theorem convert_dimension_known (st : SanState) (fields : List (String × Value))
    (q : ℚ) (b : Bool) (u : String) (f : ℚ)
    (hv : dictGet fields "value" = some (.num q b))
    (hu : dictGet fields "unit" = some (.str u))
    (hf : unit_conversions u = some f) :
    convert_dimension st (.dict fields) =
      .ok (.dict [("value", .num (ratMul q f) false), ("unit", .str "mm"),
                  ("original_value", .num q b), ("original_unit", .str u)], st) := by
  simp [convert_dimension, hv, hu, hf]

/-- Evaluation of _convert_dimension on a dimension dict with a numeric value
and an unrecognized unit string: warning appended, value treated as mm. -/
theorem convert_dimension_unknown (st : SanState) (fields : List (String × Value))
    (q : ℚ) (b : Bool) (u : String)
    (hv : dictGet fields "value" = some (.num q b))
    (hu : dictGet fields "unit" = some (.str u))
    (hf : unit_conversions u = none) :
    convert_dimension st (.dict fields) =
      .ok (.dict [("value", .num q false), ("unit", .str "mm"),
                  ("original_value", .num q b), ("original_unit", .str "mm")],
           addWarning st ("Unknown unit '" ++ u ++ "', treating as mm")) := by
  have h1 : ratMul q 1 = q := by rw [ratMul_eq, mul_one]
  have hm : unit_conversions "mm" = some 1 := rfl
  simp [convert_dimension, hv, hu, hf, hm, h1]

/-- Claim C2 (code bug evaluation): sanitize_plan called on a non-dict plan
(here None, exactly as the repository's test_none_plan does) raises
AttributeError across the public boundary instead of returning a
(False, plan, messages) triple: the logging f-string on the first line of
sanitize_plan reads plan.get before the try block. -/
theorem C2_nondict_plan_raises :
    sanitize_plan default_machine_profile defaultSettings "t" Value.null false
      = .error (.otherError "'NoneType' object has no attribute 'get'") := rfl

/-- Claim C7: unit conversion maps {value: v, unit: u} for supported u to
{value: v*factor(u), unit: mm, original_value: v, original_unit: u}, where the
factor table is mm 1, cm 10, m 1000, in 25.4, ft 304.8, deg 1, rad 180/pi (the
source's float 180.0/math.pi, whose exact value the last conjunct states);
converting an already-mm dimension keeps the numeric value; {value 2, unit in}
yields {value 50.8 = 254/5, ...}; an unknown unit appends a warning and the
value is treated as already-mm (no failure, no silent change of the number). -/
theorem C7_unit_conversion :
    (unit_conversions "mm" = some 1 ∧ unit_conversions "cm" = some 10 ∧
     unit_conversions "m" = some 1000 ∧ unit_conversions "in" = some (mkRat 254 10) ∧
     unit_conversions "ft" = some (mkRat 3048 10) ∧ unit_conversions "deg" = some 1 ∧
     unit_conversions "rad" = some (mkRat 1007958012753983 17592186044416)) ∧
    (∀ st fields q b u f, dictGet fields "value" = some (.num q b) →
       dictGet fields "unit" = some (.str u) → unit_conversions u = some f →
       convert_dimension st (.dict fields) =
         .ok (.dict [("value", .num (q * f) false), ("unit", .str "mm"),
                     ("original_value", .num q b), ("original_unit", .str u)], st)) ∧
    (∀ st q b, convert_dimension st (.dict [("value", .num q b), ("unit", .str "mm")]) =
       .ok (.dict [("value", .num q false), ("unit", .str "mm"),
                   ("original_value", .num q b), ("original_unit", .str "mm")], st)) ∧
    (convert_dimension ⟨[], []⟩ (.dict [("value", .num 2 true), ("unit", .str "in")]) =
       .ok (.dict [("value", .num (mkRat 254 5) false), ("unit", .str "mm"),
                   ("original_value", .num 2 true), ("original_unit", .str "in")], ⟨[], []⟩)) ∧
    (∀ st fields q b u, dictGet fields "value" = some (.num q b) →
       dictGet fields "unit" = some (.str u) → unit_conversions u = none →
       convert_dimension st (.dict fields) =
         .ok (.dict [("value", .num q false), ("unit", .str "mm"),
                     ("original_value", .num q b), ("original_unit", .str "mm")],
              addWarning st ("Unknown unit '" ++ u ++ "', treating as mm"))) := by
  refine ⟨⟨rfl, rfl, rfl, rfl, rfl, rfl, rfl⟩, ?_, ?_, rfl, ?_⟩
  · intro st fields q b u f hv hu hf
    rw [convert_dimension_known st fields q b u f hv hu hf, ratMul_eq]
  · intro st q b
    have h := convert_dimension_known st [("value", .num q b), ("unit", .str "mm")] q b "mm" 1
      rfl rfl rfl
    rw [h]
    have h1 : ratMul q 1 = q := by rw [ratMul_eq, mul_one]
    rw [h1]
  · intro st fields q b u hv hu hf
    exact convert_dimension_unknown st fields q b u hv hu hf

/-- Witness for C7: the general conversion conjunct evaluated at
{value 3, unit cm}. -/
theorem C7_unit_conversion_witness :
    convert_dimension ⟨[], []⟩ (.dict [("value", .num 3 true), ("unit", .str "cm")]) =
      .ok (.dict [("value", .num ((3 : ℚ) * 10) false), ("unit", .str "mm"),
                  ("original_value", .num 3 true), ("original_unit", .str "cm")], ⟨[], []⟩) :=
  C7_unit_conversion.2.1 ⟨[], []⟩ [("value", .num 3 true), ("unit", .str "cm")] 3 true "cm" 10
    rfl rfl rfl

/-- Claim C3 counterexample: this plan sanitizes successfully (is_valid true,
no messages), yet the width parameter — a dimensional parameter given as a
bare number — is NOT rewritten to the canonical {value, unit, original_value,
original_unit} shape: it survives as the bare number 100, refuting the claim's
"including parameters originally given as bare numbers". -/
theorem C3_counterexample :
    sanitize_plan default_machine_profile defaultSettings "t" C3plan false
      = .ok (true, C3expected, []) ∧
    dictGet C3expectedParams "width" = some (.num 100 true) :=
  ⟨rfl, rfl⟩

/-- Claim C4 counterexample: draw_line is in the sanitizer's valid-operation
set, yet dispatching a draw_line operation reaches the executor's
"Unsupported operation type" ExecutionError branch. -/
theorem C4_counterexample :
    get_valid_operations.contains "draw_line" = true ∧
    execute_single_operation
        [("op_id", .str "op_1"), ("op", .str "draw_line"), ("params", .dict [])]
      = .error (.executionError "Unsupported operation type: draw_line") :=
  ⟨rfl, rfl⟩

/-- Evaluation of sanitize_plan's result assembly once the pipeline body has
run: messages are the (strict-extended) error bucket followed by the warning
bucket, and is_valid is the emptiness of the extended error bucket. -/
theorem sanitize_plan_eval (profile : MachineProfile) (settings : Settings) (now : String)
    (fields plan' : List (String × Value)) (st : SanState) (strict : Bool)
    (h : sanitize_plan_run profile settings now fields = .ok (plan', st)) :
    sanitize_plan profile settings now (.dict fields) strict
      = .ok ((if strict && !st.warnings.isEmpty then st.errors ++ st.warnings else st.errors).isEmpty,
             .dict plan',
             (if strict && !st.warnings.isEmpty then st.errors ++ st.warnings else st.errors)
               ++ st.warnings) := by
  simp [sanitize_plan, h, assemble_result]

/-- In strict mode the extended error bucket is empty iff both buckets are. -/
theorem strict_errs_isEmpty (E W : List String) :
    (if true && !W.isEmpty then E ++ W else E).isEmpty = (E.isEmpty && W.isEmpty) := by
  cases W with
  | nil => simp
  | cons w ws => cases E <;> simp

/-- In strict mode the message list is errors ++ warnings ++ warnings. -/
theorem strict_messages (E W : List String) :
    (if true && !W.isEmpty then E ++ W else E) ++ W = E ++ W ++ W := by
  cases W <;> simp

/-- Claim C4 (amended): every tag the executor's dispatch handles is accepted
by the sanitizer, but not conversely — the dispatch recognizes exactly the 13
tags of `executor_handled_ops`, and any operation whose tag lies outside that
list (draw_line, draw_arc, revolve, ... are in the sanitizer's set) raises the
"Unsupported operation type" ExecutionError; for the 13 handled tags dispatch
never reaches that branch. -/
theorem C4_amended :
    (∀ t ∈ executor_handled_ops, t ∈ get_valid_operations) ∧
    (∀ tag od vid pv, dictGet od "op" = some (.str tag) → dictGet od "op_id" = some vid →
       dictGet od "params" = some pv → tag ∉ executor_handled_ops →
       execute_single_operation od
         = .error (.executionError ("Unsupported operation type: " ++ tag))) ∧
    (∀ t ∈ executor_handled_ops,
       isUnsupportedErr (execute_single_operation
         [("op_id", .str "op_1"), ("op", .str t), ("params", .dict [])]) t = false) := by
  refine ⟨by decide, ?_, by decide⟩
  intro tag od vid pv hop hid hpar hmem
  simp only [executor_handled_ops, List.mem_cons, List.not_mem_nil, or_false, not_or] at hmem
  obtain ⟨h1, h2, h3, h4, h5, h6, h7, h8, h9, h10, h11, h12, h13⟩ := hmem
  simp [execute_single_operation, getItem, hop, hid, hpar, value_beq_str, pyStr,
        h1, h2, h3, h4, h5, h6, h7, h8, h9, h10, h11, h12, h13]

/-- Witness for C4 (amended): draw_arc is sanitizer-accepted but dispatches to
the Unsupported ExecutionError. -/
theorem C4_amended_witness :
    execute_single_operation
        [("op_id", .str "op_7"), ("op", .str "draw_arc"), ("params", .dict [])]
      = .error (.executionError ("Unsupported operation type: " ++ "draw_arc")) :=
  C4_amended.2.1 "draw_arc"
    [("op_id", .str "op_7"), ("op", .str "draw_arc"), ("params", .dict [])]
    (.str "op_7") (.dict []) rfl rfl rfl (by decide)

/-- Claim C8 counterexample: the only operation declares a dependency on the
non-existent op_99, so the claim demands a message naming op_99 — but because
that operation is dropped by per-operation sanitization (invalid op_id
format), its dependencies are never checked: the result is invalid with a
single message, and no message mentions op_99. -/
theorem C8_counterexample :
    sanitize_plan default_machine_profile defaultSettings "t" C8plan false
      = .ok (false, C8expected, ["Operation 0: Invalid op_id format: bad"]) ∧
    (["Operation 0: Invalid op_id format: bad"].all
      (fun m => !strContainsSub m "op_99")) = true :=
  ⟨rfl, rfl⟩

/-- Claim C10 counterexample: with two cut operations the destructive-operation
warning string enters the warning bucket twice, so in strict mode it occurs
four times in the returned messages (not exactly twice), and in default mode
twice (not once). -/
theorem C10_counterexample :
    sanitize_plan default_machine_profile defaultSettings "t" C10plan true
      = .ok (false, C10expected, [C10msg, C10msg, C10msg, C10msg]) ∧
    ([C10msg, C10msg, C10msg, C10msg].count C10msg = 4) ∧
    sanitize_plan default_machine_profile defaultSettings "t" C10plan false
      = .ok (true, C10expected, [C10msg, C10msg]) ∧
    ([C10msg, C10msg].count C10msg = 2) :=
  ⟨rfl, rfl, rfl, rfl⟩

/-- Claim C10 (amended): when the pipeline body succeeds with error bucket E
and warning bucket W, strict mode returns messages E ++ W ++ W (every
warning-bucket ENTRY is listed twice — a string's occurrence count is twice
its multiplicity in W, plus its occurrences in E — and is_valid is the
emptiness of both buckets), while default mode returns E ++ W (each entry
once, errors before warnings). -/
theorem C10_amended :
    ∀ profile settings now fields plan' st,
      sanitize_plan_run profile settings now fields = .ok (plan', st) →
      sanitize_plan profile settings now (.dict fields) true
        = .ok (st.errors.isEmpty && st.warnings.isEmpty, .dict plan',
               st.errors ++ st.warnings ++ st.warnings) ∧
      sanitize_plan profile settings now (.dict fields) false
        = .ok (st.errors.isEmpty, .dict plan', st.errors ++ st.warnings) := by
  intro profile settings now fields plan' st h
  constructor
  · rw [sanitize_plan_eval profile settings now fields plan' st true h,
        strict_errs_isEmpty, strict_messages]
  · rw [sanitize_plan_eval profile settings now fields plan' st false h]
    simp

/-- Witness for C10 (amended): the clean plan runs with empty buckets, and
strict mode returns is_valid with no messages. -/
theorem C10_amended_witness :
    sanitize_plan default_machine_profile defaultSettings "t" (.dict cleanFields) true
      = .ok (true, .dict cleanFields, []) :=
  (C10_amended default_machine_profile defaultSettings "t" cleanFields cleanFields
    ⟨[], []⟩ rfl).1

/-- Claim C6: when the pipeline body succeeds, default-mode validity is
exactly the emptiness of the error bucket (warnings never fail a plan), and
strict-mode validity additionally requires an empty warning bucket; on the
concrete plan whose only defect is a circle diameter below the machine
profile's minimum tool diameter, sanitize_plan returns is_valid true with
strict_mode false and is_valid false with strict_mode true. -/
theorem C6_warning_tolerance :
    (∀ profile settings now fields plan' st,
       sanitize_plan_run profile settings now fields = .ok (plan', st) →
       sanitize_plan profile settings now (.dict fields) false
         = .ok (st.errors.isEmpty, .dict plan', st.errors ++ st.warnings) ∧
       sanitize_plan profile settings now (.dict fields) true
         = .ok (st.errors.isEmpty && st.warnings.isEmpty, .dict plan',
                st.errors ++ st.warnings ++ st.warnings)) ∧
    (∃ p m, sanitize_plan default_machine_profile defaultSettings "t" C6plan false
       = .ok (true, p, m)) ∧
    (∃ p m, sanitize_plan default_machine_profile defaultSettings "t" C6plan true
       = .ok (false, p, m)) := by
  refine ⟨?_, ⟨_, _, rfl⟩, ⟨_, _, rfl⟩⟩
  intro profile settings now fields plan' st h
  constructor
  · rw [sanitize_plan_eval profile settings now fields plan' st false h]
    simp
  · rw [sanitize_plan_eval profile settings now fields plan' st true h,
        strict_errs_isEmpty, strict_messages]

/-- Witness for C6: instantiating the general bucket law on the clean plan. -/
theorem C6_warning_tolerance_witness :
    sanitize_plan default_machine_profile defaultSettings "t" (.dict cleanFields) false
      = .ok (true, .dict cleanFields, []) :=
  (C6_warning_tolerance.1 default_machine_profile defaultSettings "t" cleanFields cleanFields
    ⟨[], []⟩ rfl).1

/-- A ValidationError from the structural check is caught at the top of
sanitize_plan with still-empty buckets, producing a failure result whose
message list is exactly the one internal-error message. -/
theorem sanitize_plan_structure_error (profile : MachineProfile) (settings : Settings)
    (now : String) (strict : Bool) (fields : List (String × Value)) (m : String)
    (h : validate_plan_structure settings fields = .error (.validationError m)) :
    sanitize_plan profile settings now (.dict fields) strict
      = .ok (false, .dict fields, ["Internal sanitization error: " ++ m]) := by
  simp [sanitize_plan, sanitize_plan_run, h, errText]

/-- Every gross structural malformation makes _validate_plan_structure raise a
ValidationError. -/
theorem validate_plan_structure_bad (settings : Settings) (fields : List (String × Value))
    (hbad : dictHasKey fields "plan_id" = false ∨ dictHasKey fields "metadata" = false ∨
      dictHasKey fields "operations" = false ∨
      (∃ v, dictGet fields "operations" = some v ∧ ∀ l, v ≠ .list l) ∨
      dictGet fields "operations" = some (.list []) ∨
      (∃ l, dictGet fields "operations" = some (.list l) ∧
        settings.max_operations_per_plan.getD 50 < l.length)) :
    ∃ m, validate_plan_structure settings fields = .error (.validationError m) := by
  cases h1 : dictHasKey fields "plan_id" with
  | false => exact ⟨"Missing required field: plan_id", by simp [validate_plan_structure, h1]⟩
  | true =>
    cases h2 : dictHasKey fields "metadata" with
    | false => exact ⟨"Missing required field: metadata", by simp [validate_plan_structure, h1, h2]⟩
    | true =>
      cases h3 : dictHasKey fields "operations" with
      | false =>
        exact ⟨"Missing required field: operations", by simp [validate_plan_structure, h1, h2, h3]⟩
      | true =>
        rcases hbad with hb | hb | hb | ⟨v, hv, hnl⟩ | hb | ⟨l, hl, hlen⟩
        · rw [h1] at hb; cases hb
        · rw [h2] at hb; cases hb
        · rw [h3] at hb; cases hb
        · refine ⟨"Operations must be a list", ?_⟩
          cases v with
          | list l => exact absurd rfl (hnl l)
          | null => simp [validate_plan_structure, h1, h2, h3, hv]
          | num q b => simp [validate_plan_structure, h1, h2, h3, hv]
          | str s => simp [validate_plan_structure, h1, h2, h3, hv]
          | dict d => simp [validate_plan_structure, h1, h2, h3, hv]
        · exact ⟨"Plan must contain at least one operation",
            by simp [validate_plan_structure, h1, h2, h3, hb]⟩
        · refine ⟨"Plan exceeds maximum operations limit: " ++
            toString (settings.max_operations_per_plan.getD 50), ?_⟩
          have h0 : ¬ (l.length = 0) := by omega
          simp [validate_plan_structure, h1, h2, h3, hl, h0, hlen]

/-- Claim C5: any dict plan missing a required top-level field, or whose
operations value is not a list, is empty, or exceeds the configured maximum
(default 50), is rejected with is_valid false and EXACTLY ONE message (the
pipeline is short-circuited and the original plan returned); in particular a
plan missing only operations produces the single message "Internal
sanitization error: Missing required field: operations", which contains the
substring "operations". -/
theorem C5_structural_rejection :
    (∀ profile settings now strict (fields : List (String × Value)),
       (dictHasKey fields "plan_id" = false ∨ dictHasKey fields "metadata" = false ∨
        dictHasKey fields "operations" = false ∨
        (∃ v, dictGet fields "operations" = some v ∧ ∀ l, v ≠ .list l) ∨
        dictGet fields "operations" = some (.list []) ∨
        (∃ l, dictGet fields "operations" = some (.list l) ∧
          settings.max_operations_per_plan.getD 50 < l.length)) →
       ∃ msg, sanitize_plan profile settings now (.dict fields) strict
         = .ok (false, .dict fields, [msg])) ∧
    (∀ profile settings now strict (fields : List (String × Value)),
       dictHasKey fields "plan_id" = true → dictHasKey fields "metadata" = true →
       dictHasKey fields "operations" = false →
       sanitize_plan profile settings now (.dict fields) strict
         = .ok (false, .dict fields,
                ["Internal sanitization error: Missing required field: operations"])) ∧
    strContainsSub "Internal sanitization error: Missing required field: operations"
      "operations" = true := by
  refine ⟨?_, ?_, rfl⟩
  · intro profile settings now strict fields hbad
    obtain ⟨m, hm⟩ := validate_plan_structure_bad settings fields hbad
    exact ⟨_, sanitize_plan_structure_error profile settings now strict fields m hm⟩
  · intro profile settings now strict fields h1 h2 h3
    have hm : validate_plan_structure settings fields
        = .error (.validationError "Missing required field: operations") := by
      simp [validate_plan_structure, h1, h2, h3]
    exact sanitize_plan_structure_error profile settings now strict fields _ hm

/-- Witness for C5: a plan with plan_id and metadata but no operations. -/
theorem C5_structural_rejection_witness :
    sanitize_plan default_machine_profile defaultSettings "t"
        (.dict [("plan_id", .str "p"), ("metadata", .dict [])]) false
      = .ok (false, .dict [("plan_id", .str "p"), ("metadata", .dict [])],
             ["Internal sanitization error: Missing required field: operations"]) :=
  C5_structural_rejection.2.1 default_machine_profile defaultSettings "t" false
    [("plan_id", .str "p"), ("metadata", .dict [])] rfl rfl rfl

/-- Claim C3 (amended): sanitization canonicalizes exactly the parameters
already given in {value, unit} dict shape (with the original value and unit
preserved); parameters of any other shape — bare numbers in particular — pass
through unchanged, and an operation whose rule check raises a
ValidationWarning is kept verbatim in the sanitized list, with its params not
converted at all. -/
theorem C3_amended :
    (∀ st fields q b u f, dictGet fields "value" = some (.num q b) →
       dictGet fields "unit" = some (.str u) → unit_conversions u = some f →
       convert_dimension st (.dict fields) =
         .ok (.dict [("value", .num (q * f) false), ("unit", .str "mm"),
                     ("original_value", .num q b), ("original_unit", .str u)], st)) ∧
    (∀ (ps : List (String × Value)) st ps' st',
       convert_dimensional_params st ps = .ok (ps', st') →
       ∀ (j : Nat) (k : String) (v : Value),
         ps[j]? = some (k, v) → isDimParam v = false → ps'[j]? = some (k, v)) ∧
    (∀ profile st op rest i m st' rest' st'',
       sanitize_single_operation profile st op = .error (.validationWarning m, st') →
       sanitize_operations profile (addWarning st' ("Operation " ++ toString i ++ ": " ++ m))
         rest (i + 1) = .ok (rest', st'') →
       sanitize_operations profile st (op :: rest) i = .ok (op :: rest', st'')) := by
  refine ⟨?_, ?_, ?_⟩
  · intro st fields q b u f hv hu hf
    rw [convert_dimension_known st fields q b u f hv hu hf, ratMul_eq]
  · intro ps
    induction ps with
    | nil =>
        intro st ps' st' h j k v hj hdim
        simp at hj
    | cons hd tl ih =>
        obtain ⟨hk, hv⟩ := hd
        intro st ps' st' h j k v hj hdim
        simp only [convert_dimensional_params] at h
        by_cases hd1 : isDimParam hv = true
        · rw [if_pos hd1] at h
          cases hc : convert_dimension st hv with
          | error e => simp [hc] at h
          | ok pr =>
              obtain ⟨v', st1⟩ := pr
              simp only [hc] at h
              cases hr : convert_dimensional_params st1 tl with
              | error e => simp [hr] at h
              | ok pr2 =>
                  obtain ⟨rest', st2⟩ := pr2
                  simp only [hr] at h
                  injection h with h1
                  have hps' : (hk, v') :: rest' = ps' := congrArg Prod.fst h1
                  cases j with
                  | zero =>
                      simp at hj
                      rw [← hj.2] at hdim
                      rw [hdim] at hd1
                      simp at hd1
                  | succ n =>
                      simp at hj
                      have := ih st1 rest' st2 hr n k v (by simpa using hj) hdim
                      rw [← hps']
                      simpa using this
        · rw [if_neg hd1] at h
          cases hr : convert_dimensional_params st tl with
          | error e => simp [hr] at h
          | ok pr2 =>
              obtain ⟨rest', st2⟩ := pr2
              simp only [hr] at h
              injection h with h1
              have hps' : (hk, hv) :: rest' = ps' := congrArg Prod.fst h1
              cases j with
              | zero =>
                  rw [← hps']
                  simpa using hj
              | succ n =>
                  simp at hj
                  have := ih st rest' st2 hr n k v (by simpa using hj) hdim
                  rw [← hps']
                  simpa using this
  · intro profile st op rest i m st' rest' st'' hw hrest
    simp only [sanitize_operations, hw, hrest]

/-- Witness for C3 (amended): sanitizing the single sub-minimum-diameter
circle operation keeps the operation verbatim (its dimension dict is not
canonicalized) and records the warning. -/
theorem C3_amended_witness :
    sanitize_operations default_machine_profile ⟨[], []⟩
        [.dict [("op_id", .str "op_1"), ("op", .str "draw_circle"),
                ("params", .dict [("diameter",
                  .dict [("value", .num (mkRat 3 10) false), ("unit", .str "mm")])])]] 0
      = .ok ([.dict [("op_id", .str "op_1"), ("op", .str "draw_circle"),
                ("params", .dict [("diameter",
                  .dict [("value", .num (mkRat 3 10) false), ("unit", .str "mm")])])]],
             ⟨[], ["Operation 0: Diameter 3/10mm below minimum tool diameter 1/2mm"]⟩) :=
  C3_amended.2.2 default_machine_profile ⟨[], []⟩
    (.dict [("op_id", .str "op_1"), ("op", .str "draw_circle"),
            ("params", .dict [("diameter",
              .dict [("value", .num (mkRat 3 10) false), ("unit", .str "mm")])])])
    [] 0 "Diameter 3/10mm below minimum tool diameter 1/2mm" ⟨[], []⟩ [] _ rfl rfl

/-- Inversion of the mock preview: its operations_previewed field is the len
of the plan's operations value. -/
theorem mock_preview_len (f : List (String × Value)) (d : PreviewData)
    (h : mock_preview_execution (.dict f) = .ok d) :
    pyLen ((dictGet f "operations").getD (.list [])) = .ok d.operations_previewed := by
  simp only [mock_preview_execution, pyGet] at h
  cases hl : pyLen ((dictGet f "operations").getD (.list [])) with
  | error e => simp [hl] at h
  | ok n =>
      simp only [hl] at h
      cases hi : iterElems ((dictGet f "operations").getD (.list [])) with
      | error e => simp [hi] at h
      | ok ops =>
          simp only [hi] at h
          cases hm : ops.mapM preview_feature_line with
          | error e =>
              simp only [hm] at h
              exact Except.noConfusion h
          | ok feats =>
              simp only [hm] at h
              injection h with h1
              rw [← h1]

/-- Claim C9: preview_plan_in_sandbox performs no mutation — on every exit
path the executor state is returned unchanged, the (wall-clock-free) result is
independent of the incoming state (so repeated calls with the same plan agree
and leave the committed timeline mapping and feature record intact), and on
success it returns exactly the estimated feature descriptions computed by the
mock preview. -/
theorem C9_sandbox_frame :
    ∀ plan st,
      (∀ r st', preview_plan_in_sandbox st plan = .ok (r, st') → st' = st) ∧
      (∀ st₂, Except.map Prod.fst (preview_plan_in_sandbox st plan)
          = Except.map Prod.fst (preview_plan_in_sandbox st₂ plan)) ∧
      (∀ fields data, plan = .dict fields → mock_preview_execution plan = .ok data →
         preview_plan_in_sandbox st plan =
           .ok ({ success := true, plan_id := (dictGet fields "plan_id").getD .null,
                  preview_data := some data,
                  operations_count := some data.operations_previewed,
                  error := none }, st)) := by
  intro plan st
  cases plan with
  | dict fields0 =>
      refine ⟨?_, ?_, ?_⟩
      · intro r st' h
        cases hm : mock_preview_execution (.dict fields0) with
        | error e =>
            simp [preview_plan_in_sandbox, hm] at h
            exact h.2.symm
        | ok data0 =>
            cases hl : pyLen ((dictGet fields0 "operations").getD (.list [])) with
            | error e =>
                simp [preview_plan_in_sandbox, hm, hl] at h
                exact h.2.symm
            | ok n =>
                simp [preview_plan_in_sandbox, hm, hl] at h
                exact h.2.symm
      · intro st₂
        cases hm : mock_preview_execution (.dict fields0) with
        | error e => simp [preview_plan_in_sandbox, hm, Except.map]
        | ok data0 =>
            cases hl : pyLen ((dictGet fields0 "operations").getD (.list [])) with
            | error e => simp [preview_plan_in_sandbox, hm, hl, Except.map]
            | ok n => simp [preview_plan_in_sandbox, hm, hl, Except.map]
      · intro fields data hpf hmock
        injection hpf with hf
        subst hf
        have hlen := mock_preview_len fields0 data hmock
        simp [preview_plan_in_sandbox, hmock, hlen]
  | null =>
      refine ⟨?_, fun _ => rfl, ?_⟩
      · intro r st' h
        simp [preview_plan_in_sandbox] at h
      · intro fields data hpf
        cases hpf
  | num q b =>
      refine ⟨?_, fun _ => rfl, ?_⟩
      · intro r st' h
        simp [preview_plan_in_sandbox] at h
      · intro fields data hpf
        cases hpf
  | str s =>
      refine ⟨?_, fun _ => rfl, ?_⟩
      · intro r st' h
        simp [preview_plan_in_sandbox] at h
      · intro fields data hpf
        cases hpf
  | list xs =>
      refine ⟨?_, fun _ => rfl, ?_⟩
      · intro r st' h
        simp [preview_plan_in_sandbox] at h
      · intro fields data hpf
        cases hpf

/-- Witness for C9: previewing a 2-operation plan from a non-empty executor
state returns the estimated features and the state unchanged. -/
theorem C9_sandbox_frame_witness :
    preview_plan_in_sandbox C9state C9plan
      = .ok ({ success := true, plan_id := .str "p9", preview_data := some C9data,
               operations_count := some 2, error := none }, C9state) :=
  (C9_sandbox_frame C9plan C9state).2.2 C9fields C9data rfl rfl

/-- Evaluation of the inner dependency loop: one error message per missing id,
the warning bucket untouched. -/
theorem depCheckOne_eval (ids : List Value) (fs : List (String × Value)) (oid : Value)
    (hid : getItem fs "op_id" = .ok oid) :
    ∀ st ds, depCheckOne ids fs st ds
      = .ok ⟨st.errors ++ ds.filterMap (fun d =>
          if ids.contains d then none
          else some ("Operation " ++ pyStr oid ++ " depends on non-existent operation " ++ pyStr d)),
          st.warnings⟩ := by
  intro st ds
  induction ds generalizing st with
  | nil => simp [depCheckOne]
  | cons d ds ih =>
      by_cases hc : ids.contains d
      · simp [depCheckOne, hc, ih]
      · simp [depCheckOne, hc, hid, ih, addError]

/-- Evaluation of the outer dependency loop over well-shaped operations. -/
theorem depCheckAll_eval (ids : List Value) :
    ∀ ops st, (∀ op ∈ ops, depCheckReady op) →
      depCheckAll ids st ops = .ok ⟨st.errors ++ depErrorsOf ids ops, st.warnings⟩ := by
  intro ops
  induction ops with
  | nil => intro st _; simp [depCheckAll, depErrorsOf]
  | cons op rest ih =>
      intro st hall
      obtain ⟨fs, hop, hoid, hdeps⟩ := hall op (by simp)
      subst hop
      obtain ⟨oid, hdg⟩ : ∃ oid, dictGet fs "op_id" = some oid := by
        cases hg : dictGet fs "op_id" with
        | some o => exact ⟨o, rfl⟩
        | none => rw [hg] at hoid; simp at hoid
      have hgok : getItem fs "op_id" = .ok oid := by simp [getItem, hdg]
      have hrest : ∀ op ∈ rest, depCheckReady op := fun op h => hall op (by simp [h])
      rcases hdeps with hnone | ⟨ds, hds⟩
      · simp only [depCheckAll, hnone]
        rw [ih st hrest]
        simp [depErrorsOf, hnone]
      · have hone := depCheckOne_eval ids fs oid hgok st ds
        simp only [depCheckAll, hds, iterElems, hone]
        rw [ih _ hrest]
        simp [depErrorsOf, hds, hdg, List.append_assoc]

/-- Evaluation of _validate_operation_dependencies: the source loop computes
exactly the message list of `depErrorsOf`. -/
theorem validate_operation_dependencies_eval (st : SanState) (ops ids : List Value)
    (hids : opIdsOf ops = .ok ids) (hready : ∀ op ∈ ops, depCheckReady op) :
    validate_operation_dependencies st ops
      = .ok ⟨st.errors ++ depErrorsOf ids ops, st.warnings⟩ := by
  simp [validate_operation_dependencies, hids, depCheckAll_eval ids ops st hready]

/-- Claim C8 (amended): the dependency check is existence-only over the
operations that SURVIVE per-operation sanitization — for those it appends
exactly one ERROR message naming each declared dependency id that matches no
op_id (the `depErrorsOf` list); a cyclic plan whose ids all exist passes
validation, and a surviving operation with a missing dependency id fails the
plan with the naming message.  (As the C8 counterexample shows, an operation
dropped by per-operation sanitization never has its dependencies checked, so
the original claim's universal form fails.) -/
theorem C8_amended :
    (∀ st ops ids, opIdsOf ops = .ok ids → (∀ op ∈ ops, depCheckReady op) →
       validate_operation_dependencies st ops
         = .ok ⟨st.errors ++ depErrorsOf ids ops, st.warnings⟩) ∧
    (∃ p, sanitize_plan default_machine_profile defaultSettings "t" C8cyclePlan false
       = .ok (true, p, [])) ∧
    (∃ p, sanitize_plan default_machine_profile defaultSettings "t" C8missingPlan false
       = .ok (false, p, ["Operation op_1 depends on non-existent operation op_9"])) := by
  refine ⟨?_, ⟨_, rfl⟩, ⟨_, rfl⟩⟩
  intro st ops ids h1 h2
  exact validate_operation_dependencies_eval st ops ids h1 h2

/-- Witness for C8 (amended): one operation declaring one missing dependency
yields exactly the naming error message. -/
theorem C8_amended_witness :
    validate_operation_dependencies ⟨[], []⟩
        [.dict [("op_id", .str "op_1"), ("dependencies", .list [.str "op_9"])]]
      = .ok ⟨["Operation op_1 depends on non-existent operation op_9"], []⟩ :=
  C8_amended.1 ⟨[], []⟩
    [.dict [("op_id", .str "op_1"), ("dependencies", .list [.str "op_9"])]]
    [.str "op_1"] rfl
    (fun op h => by
      simp at h
      subst h
      exact ⟨_, rfl, rfl, Or.inr ⟨_, rfl⟩⟩)

/-- The dispatch loop splits over list append: the tail runs only if the whole
prefix succeeded, from the state the prefix produced. -/
theorem execute_operations_append (xs ys : List Value) :
    ∀ i st, execute_operations (xs ++ ys) i st
      = match execute_operations xs i st with
        | .ok (rs, st') =>
            (match execute_operations ys (i + xs.length) st' with
             | .ok (rs2, st'') => .ok (rs ++ rs2, st'')
             | .error e => .error e)
        | .error e => .error e := by
  induction xs with
  | nil =>
      intro i st
      simp only [List.nil_append, execute_operations, List.length_nil, Nat.add_zero]
      cases h : execute_operations ys i st with
      | ok pr => obtain ⟨rs2, st2⟩ := pr; simp
      | error e => simp
  | cons op rest ih =>
      intro i st
      cases op with
      | dict od =>
          simp only [List.cons_append, execute_operations, List.length_cons]
          cases hs : execute_single_operation od with
          | error e => simp
          | ok res =>
              have hrec := ih (i + 1) (recordResult od res st)
              cases hr : execute_operations rest (i + 1) (recordResult od res st) with
              | error e =>
                  simp only [hr] at hrec
                  simp [hrec, hr]
              | ok pr =>
                  obtain ⟨rs1, st1⟩ := pr
                  simp only [hr] at hrec
                  have hidx : i + 1 + rest.length = i + (rest.length + 1) := by omega
                  cases hy : execute_operations ys (i + 1 + rest.length) st1 with
                  | error e =>
                      simp only [hy] at hrec
                      rw [hidx] at hy
                      simp [hrec, hr, hy]
                  | ok pr2 =>
                      obtain ⟨rs2, st2⟩ := pr2
                      simp only [hy] at hrec
                      rw [hidx] at hy
                      simp [hrec, hr, hy]
      | null => simp [execute_operations]
      | num q b => simp [execute_operations]
      | str s => simp [execute_operations]
      | list xs2 => simp [execute_operations]

/-- Claim C1: fail-fast partial execution.  For a plan whose operations list
is pre ++ [bad] ++ post, where every operation of pre dispatches successfully
(producing state stPre from the cleared starting state) and bad's dispatch
raises error e, execute_plan returns success false, error_message equal to the
triggering ExecutionError "Operation <op_id> failed: <str(e)>", and
partial_timeline_mapping exactly the entries recorded for the operations
before the failing one (stPre's mapping); moreover the dispatch loop's outcome
is unchanged if post is replaced by the empty list — no operation after the
failing one is ever dispatched. -/
theorem C1_fail_fast (fields : List (String × Value)) (pre post : List Value)
    (od : List (String × Value)) (oid : String) (e : PyErr) (rs : List OpRes)
    (stPre st0 : ExecState)
    (hops : dictGet fields "operations" = some (.list (pre ++ .dict od :: post)))
    (hpre : execute_operations pre 0 (initExecState (.dict fields)) = .ok (rs, stPre))
    (hfail : execute_single_operation od = .error e)
    (hoid : dictGet od "op_id" = some (.str oid)) :
    execute_plan st0 (.dict fields)
      = .ok ({ success := false, plan_id := (dictGet fields "plan_id").getD .null,
               error_message := some ("Operation " ++ oid ++ " failed: " ++ errText e),
               operations_executed := none,
               operations_attempted := some (pre ++ .dict od :: post).length,
               features_created := none, timeline_mapping := none,
               partial_timeline_mapping := some stPre.timeline_mapping,
               execution_results := none }, stPre) ∧
    execute_operations (pre ++ .dict od :: post) 0 (initExecState (.dict fields))
      = execute_operations (pre ++ [.dict od]) 0 (initExecState (.dict fields)) := by
  have hloop : ∀ tail, execute_operations (pre ++ .dict od :: tail) 0 (initExecState (.dict fields))
      = .error (.executionError ("Operation " ++ oid ++ " failed: " ++ errText e), stPre) := by
    intro tail
    rw [execute_operations_append]
    simp only [hpre]
    simp [execute_operations, hfail, hoid, pyStr]
  have h1 : getItem fields "operations" = .ok (.list (pre ++ .dict od :: post)) := by
    simp [getItem, hops]
  refine ⟨?_, by rw [hloop post, hloop []]⟩
  have hloop' := hloop post
  simp only [initExecState] at hloop'
  simp [execute_plan, h1, iterElems, initExecState, hloop', execFail, hops, pyLen, errText]

/-- Witness for C1: the 3-operation plan whose second operation (a circle with
neither radius nor diameter) raises — success false, the triggering error
message, and a partial mapping containing exactly operation 1's timeline
entry; the loop result is unchanged when operation 3 is removed. -/
theorem C1_fail_fast_witness :
    execute_plan ⟨[], [], none⟩ (.dict C1fields)
      = .ok ({ success := false, plan_id := .str "p1",
               error_message := some "Operation op_2 failed: Circle requires radius or diameter",
               operations_executed := none, operations_attempted := some 3,
               features_created := none, timeline_mapping := none,
               partial_timeline_mapping := some [(.str "op_1", .str "Timeline_Sketch_op_1")],
               execution_results := none }, C1statePre) ∧
    execute_operations [.dict C1op1, .dict C1op2, .dict C1op3] 0 (initExecState (.dict C1fields))
      = execute_operations [.dict C1op1, .dict C1op2] 0 (initExecState (.dict C1fields)) :=
  C1_fail_fast C1fields [.dict C1op1] [.dict C1op3] C1op2 "op_2"
    (.executionError "Circle requires radius or diameter")
    [{ success := true, operation_id := .str "op_1", feature_created := .str "Sketch_op_1",
       timeline_node := .str "Timeline_Sketch_op_1", feature_type := "sketch", dimensions := none }]
    C1statePre ⟨[], [], none⟩ rfl rfl rfl rfl

end FusionCoPilot
